import Mathlib

set_option maxRecDepth 8000

/-!
Verification development for the GENEActiv binary-export reader
(`src/skimu/read/_extensions/read_geneactiv.c`) and the rolling-median
binding (`src/skimu/utility/_extensions/rolling_median.c`).

The C code is shallowly embedded:
* C `double` values become `ℚ` (exact rational arithmetic in place of
  floating point; every claim here is about the algebraic form of the
  computation, not about rounding),
* C `long`/`int` values become `ℤ`,
* the text stream is a `List (List Char)` of lines (each list element is
  one line WITHOUT its trailing newline; `fgets` re-appends the `'\n'`,
  exactly as the C buffers contain it).  All lines of the GENEActiv
  format are shorter than the C read buffers (255 for `buff`, 40 for
  `time`, 3610 for `data_str`), so one `fgets` call consumes one line,
* the caller-owned sample buffers (`data->ts`, `data->acc`,
  `data->light`, `data->temp`) become total maps `ℤ → ℚ`; a C loop that
  stores into consecutive cells becomes a chain of pointwise updates.

`read_binary_imu.h` is not part of the excerpt; the handful of macros it
provides (`GN_READLINE`, `GN_SAMPLES`, the `GN_DATE_*` field extractors,
the error codes) and the libc functions `strtol`/`strtod`/`timegm` are
modelled below, each with a doc comment saying what it stands for.
-/

/-- Value of a character as a digit (C `strtol` accepts `0-9`, `a-z`,
`A-Z`; a letter counts only when its value is below the radix). -/
def digitVal (c : Char) : Option ℕ :=
  if '0' ≤ c ∧ c ≤ '9' then some (c.toNat - '0'.toNat)
  else if 'a' ≤ c ∧ c ≤ 'z' then some (c.toNat - 'a'.toNat + 10)
  else if 'A' ≤ c ∧ c ≤ 'Z' then some (c.toNat - 'A'.toNat + 10)
  else none

/-- Accumulate digits in the given radix, stopping at the first character
that is not a valid digit (libc `strtol` behaviour). -/
def digitsAcc (base : ℕ) : List Char → ℕ → ℕ
  | [], acc => acc
  | c :: cs, acc =>
    match digitVal c with
    | some v => if v < base then digitsAcc base cs (acc * base + v) else acc
    | none => acc

/-- Digit part of `strtol`: for radix 16 an optional `0x`/`0X` prefix is
consumed first. -/
def strtolDigits (base : ℕ) (s : List Char) : ℕ :=
  match s with
  | c0 :: c1 :: rest =>
    if base = 16 ∧ c0 = '0' ∧ (c1 = 'x' ∨ c1 = 'X') then digitsAcc 16 rest 0
    else digitsAcc base s 0
  | _ => digitsAcc base s 0

/-- Modelled from the spec: libc `strtol` (the excerpt's only integer
parser).  Skips leading whitespace, consumes an optional sign, then
accumulates valid digits; if no digit is present the result is `0`.
Overflow of the C `long` is not modelled (all fields of the format are
small). -/
def strtol (s : List Char) (base : ℕ) : ℤ :=
  match s.dropWhile (fun c => c.isWhitespace) with
  | [] => (strtolDigits base [] : ℤ)
  | c :: rest =>
    if c = '-' then -(strtolDigits base rest : ℤ)
    else if c = '+' then (strtolDigits base rest : ℤ)
    else (strtolDigits base (c :: rest) : ℤ)

/-- Consume a maximal run of decimal digits, returning the accumulated
value, the number of digits consumed, and the rest of the input. -/
def takeDigits : List Char → ℕ → ℕ → ℕ × ℕ × List Char
  | [], v, n => (v, n, [])
  | c :: cs, v, n =>
    if c.isDigit then takeDigits cs (v * 10 + (c.toNat - '0'.toNat)) (n + 1)
    else (v, n, c :: cs)

/-- Exponent part of `strtod` (`e`/`E`, optional sign, digits); with no
digits after the marker the value is unchanged, as in libc. -/
def strtodExp (x : ℚ) (s : List Char) : ℚ :=
  match s with
  | [] => x
  | c :: rest =>
    if c = 'e' ∨ c = 'E' then
      match rest with
      | [] => x
      | c2 :: r2 =>
        if c2 = '-' then x / 10 ^ (takeDigits r2 0 0).1
        else if c2 = '+' then x * 10 ^ (takeDigits r2 0 0).1
        else x * 10 ^ (takeDigits (c2 :: r2) 0 0).1
    else x

/-- Mantissa of `strtod`: integer digits, optional `.` plus fraction
digits, then the optional exponent. -/
def strtodAux (s : List Char) : ℚ :=
  let t := takeDigits s 0 0
  match t.2.2 with
  | [] => (t.1 : ℚ)
  | c :: r2 =>
    if c = '.' then
      let f := takeDigits r2 0 0
      strtodExp ((t.1 : ℚ) + (f.1 : ℚ) / 10 ^ f.2.1) f.2.2
    else strtodExp (t.1 : ℚ) (c :: r2)

/-- Modelled from the spec: libc `strtod` on decimal input (hex floats,
`inf` and `nan` never occur in the format and are not modelled).  Skips
leading whitespace, consumes an optional sign; with no digits at all the
result is `0`. -/
def strtod (s : List Char) : ℚ :=
  match s.dropWhile (fun c => c.isWhitespace) with
  | [] => strtodAux []
  | c :: rest =>
    if c = '-' then -(strtodAux rest)
    else if c = '+' then strtodAux rest
    else strtodAux (c :: rest)

example : strtol "100\n".toList 10 = 100 := by decide
example : strtol "abc".toList 10 = 0 := by decide
example : strtol "800".toList 16 = 2048 := by decide
example : strtol "7ff".toList 16 = 2047 := by decide
example : strtod "21.5\n".toList = 43/2 := by
  simp +decide [strtod, strtodAux, strtodExp, takeDigits, String.toList,
    List.dropWhile]
  norm_num
example : strtod "  -3.25e1".toList = -65/2 := by
  simp +decide [strtod, strtodAux, strtodExp, takeDigits, String.toList,
    List.dropWhile]
  norm_num
example : strtod "x100".toList = 0 := by
  simp +decide [strtod, strtodAux, strtodExp, takeDigits, String.toList,
    List.dropWhile]

/-! ## Data model of the reader (GN_Info_t, GN_Data_t, error codes) -/

/-- Return codes of the reader.  `GN_READ_E_NONE`, `GN_READ_E_BLOCK_TIMESTAMP`,
`GN_READ_E_BLOCK_FS_WARN`, `GN_READ_E_BLOCK_FS`, `GN_READ_E_BLOCK_DATA` and
`GN_READ_E_BLOCK_DATA_3600` appear in the C excerpt; `GN_READ_E_FORMAT` is
modelled from the spec: the failure code the `GN_READLINE` macro (defined in
the missing `read_binary_imu.h`) returns when the stream is exhausted — the
spec's `HeaderFormatError`. -/
inductive GNRead where
  | GN_READ_E_NONE
  | GN_READ_E_FORMAT
  | GN_READ_E_BLOCK_TIMESTAMP
  | GN_READ_E_BLOCK_FS_WARN
  | GN_READ_E_BLOCK_FS
  | GN_READ_E_BLOCK_DATA
  | GN_READ_E_BLOCK_DATA_3600
  deriving DecidableEq

/-- Spec §7: both failure codes of the 3600-character data-line read
(`fgets` returning NULL, and a line shorter than 3601 characters) are the
spec's `TruncatedBlockError`. -/
def isTruncatedBlockError : GNRead → Bool
  | .GN_READ_E_BLOCK_DATA => true
  | .GN_READ_E_BLOCK_DATA_3600 => true
  | _ => false

/-- The C struct `GN_Info_t`: header state threaded through the block
loop.  `fs_err` is the spec's `rate_mismatch_count`, `max_n` the running
maximum block sequence number. -/
structure GN_Info where
  fs : ℚ
  gain : Fin 3 → ℚ
  offset : Fin 3 → ℚ
  volts : ℚ
  lux : ℚ
  npages : ℤ
  max_n : ℤ
  fs_err : ℤ

/-- The C struct `GN_Data_t`: the caller-owned sample buffers, as total
maps from the absolute sample index.  The day-indexing arrays
(`day_starts`/`day_stops`) are mutated only by the external
`get_day_indexing` collaborator (not part of the excerpt) and are outside
every claim, so they are not represented. -/
structure GN_Data where
  ts : ℤ → ℚ
  acc : ℤ → ℚ
  light : ℤ → ℚ
  temp : ℤ → ℚ

/-- Modelled from the spec: `GN_SAMPLES`, the number of samples per block
(300 twelve-character groups in the 3600-character data line). -/
def GN_SAMPLES : ℕ := 300

/-! ## Line-oriented stream primitives -/

/-- One `fgets` on the line stream: returns the line with its newline
re-attached (as the C buffer holds it) and the rest of the stream. -/
def popLine : List (List Char) → Option (List Char × List (List Char))
  | [] => none
  | l :: rest => some (l ++ ['\n'], rest)

/-- Modelled from the spec: the `GN_READLINE` macro of the missing
`read_binary_imu.h` — reads one line into `buff` and fails fatally
(spec: `HeaderFormatError`) when the stream is exhausted.  State is the
pair (current `buff` contents, rest of stream). -/
def GN_READLINE (s : List Char × List (List Char)) :
    Except GNRead (List Char × List (List Char)) :=
  match s.2 with
  | [] => .error .GN_READ_E_FORMAT
  | l :: rest => .ok (l ++ ['\n'], rest)

/-- A run of `n` consecutive `GN_READLINE`s (the skip loops of the header
reader). -/
def repeatReadline : ℕ → List Char × List (List Char) →
    Except GNRead (List Char × List (List Char))
  | 0, s => .ok s
  | n + 1, s =>
    match GN_READLINE s with
    | .error e => .error e
    | .ok s2 => repeatReadline n s2

/-- The value token produced by `strtok(buff, ":")` followed by
`strtok(NULL, ":")`: the text after the first `':'` up to the next `':'`
or end of line.  (The leading-delimiter skipping of `strtok` is not
modelled; header lines are `key:value` and the value is only ever passed
to `strtol`, which ignores the trailing newline.) -/
def strtokVal (b : List Char) : List Char :=
  ((b.dropWhile (fun c => c ≠ ':')).drop 1).takeWhile (fun c => c ≠ ':')

/-- The C helper `parseline`: one unchecked `fgets` plus `strtok`
key/value split.  On a exhausted stream the C leaves `buff` unchanged and
carries on; only the value token is used by the callers. -/
def parseline (b : List Char) (ls : List (List Char)) :
    (List Char × List (List Char)) × List Char :=
  match ls with
  | [] => ((b, []), strtokVal b)
  | l :: rest => ((l ++ ['\n'], rest), strtokVal (l ++ ['\n']))

/-! ## Header reader (`geneactiv_read_header`) -/

/-- The C function `geneactiv_read_header`: consume the 59 header lines,
populating `GN_Info`.  Initial `max_n`/`fs_err` are 0 (spec §3:
`rate_mismatch_count` is 0 initially; they are fields of the caller's
zero-initialised struct, not set by the header reader itself). -/
def geneactiv_read_header (ls : List (List Char)) :
    Except GNRead (GN_Info × List (List Char)) :=
  match repeatReadline 19 ([], ls) with
  | .error e => .error e
  | .ok s1 =>
    let q2 := parseline s1.1 s1.2
    let fs : ℚ := ((strtol q2.2 10 : ℤ) : ℚ)
    match repeatReadline 27 q2.1 with
    | .error e => .error e
    | .ok s3 =>
      let q4 := parseline s3.1 s3.2
      let q5 := parseline q4.1.1 q4.1.2
      let q6 := parseline q5.1.1 q5.1.2
      let q7 := parseline q6.1.1 q6.1.2
      let q8 := parseline q7.1.1 q7.1.2
      let q9 := parseline q8.1.1 q8.1.2
      let gain : Fin 3 → ℚ :=
        ![((strtol q4.2 10 : ℤ) : ℚ), ((strtol q6.2 10 : ℤ) : ℚ),
          ((strtol q8.2 10 : ℤ) : ℚ)]
      let offset : Fin 3 → ℚ :=
        ![((strtol q5.2 10 : ℤ) : ℚ), ((strtol q7.2 10 : ℤ) : ℚ),
          ((strtol q9.2 10 : ℤ) : ℚ)]
      match GN_READLINE q9.1 with
      | .error e => .error e
      | .ok s10 =>
        let volts : ℚ := ((strtol (s10.1.drop 6) 10 : ℤ) : ℚ)
        match GN_READLINE s10 with
        | .error e => .error e
        | .ok s11 =>
          let lux : ℚ := ((strtol (s11.1.drop 4) 10 : ℤ) : ℚ)
          match repeatReadline 3 s11 with
          | .error e => .error e
          | .ok s12 =>
            let npages : ℤ := strtol (s12.1.drop 16) 10
            match GN_READLINE s12 with
            | .error e => .error e
            | .ok s13 =>
              .ok ({ fs := fs, gain := gain, offset := offset,
                     volts := volts, lux := lux, npages := npages,
                     max_n := 0, fs_err := 0 }, s13.2)

/-! ## Timestamp reconstruction (`get_timestamps`) -/

/-- Modelled from the spec: the days-from-civil-date core of libc
`timegm` (UTC calendar-to-epoch conversion, no timezone/DST adjustment);
Howard Hinnant's algorithm with C truncating division, valid for months
1..12.  Day 0 is 1970-01-01. -/
def days_from_civil (y m d : ℤ) : ℤ :=
  let y2 := if 2 < m then y else y - 1
  let era := Int.tdiv (if 0 ≤ y2 then y2 else y2 - 399) 400
  let yoe := y2 - era * 400
  let mp := Int.emod (m + 9) 12
  let doy := Int.tdiv (153 * mp + 2) 5 + d - 1
  let doe := yoe * 365 + Int.tdiv yoe 4 - Int.tdiv yoe 100 + doy
  era * 146097 + doe - 719468

/-- Modelled from the spec: libc `timegm` on a `struct tm` (fields as the
C code fills them: `tm_year` is years since 1900, `tm_mon` is
0-indexed). -/
def timegm (tm_year tm_mon tm_mday tm_hour tm_min tm_sec : ℤ) : ℤ :=
  days_from_civil (tm_year + 1900) (tm_mon + 1) tm_mday * 86400
    + tm_hour * 3600 + tm_min * 60 + tm_sec

/-- Modelled from the spec: the `GN_DATE_*` field extractors of the
missing `read_binary_imu.h` — fixed-width substring extraction from the
clock-stamp line `Page Time:YYYY-MM-DD hh:mm:ss:mmm`. -/
def GN_DATE_YEAR (t : List Char) : ℤ := strtol (t.drop 10) 10

/-- Modelled from the spec: month field of the clock-stamp line. -/
def GN_DATE_MONTH (t : List Char) : ℤ := strtol (t.drop 15) 10

/-- Modelled from the spec: day field of the clock-stamp line. -/
def GN_DATE_DAY (t : List Char) : ℤ := strtol (t.drop 18) 10

/-- Modelled from the spec: hour field of the clock-stamp line. -/
def GN_DATE_HOUR (t : List Char) : ℤ := strtol (t.drop 21) 10

/-- Modelled from the spec: minute field of the clock-stamp line. -/
def GN_DATE_MIN (t : List Char) : ℤ := strtol (t.drop 24) 10

/-- Modelled from the spec: second field of the clock-stamp line. -/
def GN_DATE_SEC (t : List Char) : ℤ := strtol (t.drop 27) 10

/-- Modelled from the spec: millisecond field of the clock-stamp line. -/
def GN_DATE_MSEC (t : List Char) : ℤ := strtol (t.drop 30) 10

/-- The C function `get_timestamps`: epoch time of the block's first
sample from the clock stamp (`timegm` plus the millisecond field scaled
to microseconds and divided by 1e6), then one timestamp per sample at
`1/fs` spacing, stored at `ts[Nps + j]` for `j < GN_SAMPLES`.  The
trailing call to the external `get_day_indexing` collaborator mutates
only the day/window index arrays (spec §4.4), which are not represented
in `GN_Data`. -/
def get_timestamps (Nps : ℤ) (time : List Char) (info : GN_Info)
    (data : GN_Data) : GN_Data :=
  let hour := GN_DATE_HOUR time
  let mnt := GN_DATE_MIN time
  let sec := GN_DATE_SEC time
  let msec := GN_DATE_MSEC time * 1000
  let t0 : ℚ :=
    (timegm (GN_DATE_YEAR time - 1900) (GN_DATE_MONTH time - 1)
        (GN_DATE_DAY time) hour mnt sec : ℚ)
      + (msec : ℚ) / 1000000
  { data with
    ts := fun i =>
      if Nps ≤ i ∧ i < Nps + (GN_SAMPLES : ℤ) then
        t0 + ((i - Nps : ℤ) : ℚ) / info.fs
      else data.ts i }

/-! ## Block data decoding (the 3600-character hex line) -/

/-- Pointwise store into a `ℤ`-indexed buffer (one C array assignment). -/
def updZ (f : ℤ → ℚ) (a : ℤ) (v : ℚ) : ℤ → ℚ :=
  fun i => if i = a then v else f i

/-- One 3-hex-digit field of the data line: `memcpy(p, &data_str[off], 3)`
followed by `strtol(p, NULL, 16)`. -/
def hex3 (ds : List Char) (off : ℕ) : ℤ :=
  strtol ((ds.drop off).take 3) 16

/-- The two's-complement adjustment `t_ = (t_ > 2047) ? -4096 + t_ : t_`. -/
def twos_adjust (t : ℤ) : ℤ :=
  if t > 2047 then -4096 + t else t

/-- Arithmetic right shift by two bits (the C `t_ >> 2` on a `long`),
i.e. floor division by 4. -/
def shr2 (t : ℤ) : ℤ := Int.fdiv t 4

/-- Calibrated acceleration of axis `k` in sample group `g`:
`((double)t_ * 100.0f - info->offset[k]) / info->gain[k]` with `t_` the
two's-complement-adjusted hex field at character offset `12*g + 3*k`. -/
def acc_val (info : GN_Info) (ds : List Char) (g : ℕ) (k : Fin 3) : ℚ :=
  (((twos_adjust (hex3 ds (12 * g + 3 * k.val)) : ℤ) : ℚ) * 100
      - info.offset k) / info.gain k

/-- Calibrated light value of sample group `g`:
`(double)(t_ >> 2) * (info->lux / info->volts)` with `t_` the raw hex
field at character offset `12*g + 9` (no two's-complement adjustment). -/
def light_val (info : GN_Info) (ds : List Char) (g : ℕ) : ℚ :=
  ((shr2 (hex3 ds (12 * g + 9)) : ℤ) : ℚ) * (info.lux / info.volts)

/-- One iteration of the decode loop (`i = 12*g`): three acceleration
stores at `acc[Nps*3 + 3*g + k]` (k = 0,1,2 in order) and one light
store at `light[Nps + g]`. -/
def write_sample_group (info : GN_Info) (ds : List Char) (Nps : ℤ)
    (d : GN_Data) (g : ℕ) : GN_Data :=
  { d with
    acc := updZ (updZ (updZ d.acc (Nps * 3 + 3 * (g : ℤ))
        (acc_val info ds g 0)) (Nps * 3 + 3 * (g : ℤ) + 1)
        (acc_val info ds g 1)) (Nps * 3 + 3 * (g : ℤ) + 2)
        (acc_val info ds g 2),
    light := updZ d.light (Nps + (g : ℤ)) (light_val info ds g) }

/-- The decode loop of `geneactiv_read_block`
(`for (int i = 0; i < 3600; i += 12)`): 300 sample groups. -/
def decode_block_data (info : GN_Info) (ds : List Char) (Nps : ℤ)
    (d : GN_Data) : GN_Data :=
  (List.range GN_SAMPLES).foldl (write_sample_group info ds Nps) d

/-! ## Block reader (`geneactiv_read_block`) -/

/-- Tail of `geneactiv_read_block` after the sampling-rate check: read
the 3600-character data line (`GN_READ_E_BLOCK_DATA` if `fgets` fails,
`GN_READ_E_BLOCK_DATA_3600` if `strlen(data_str) < 3601`), decode it,
then build the timestamps; `ier` is `GN_READ_E_NONE` or the
rate-mismatch warning set earlier. -/
def read_block_rest (ier : GNRead) (Nps : ℤ) (time : List Char)
    (info : GN_Info) (data : GN_Data) (ls : List (List Char)) :
    GNRead × GN_Info × GN_Data × List (List Char) :=
  match popLine ls with
  | none => (.GN_READ_E_BLOCK_DATA, info, data, ls)
  | some (data_str, ls10) =>
    if data_str.length < 3601 then
      (.GN_READ_E_BLOCK_DATA_3600, info, data, ls10)
    else
      let data2 := decode_block_data info data_str Nps data
      let data3 := get_timestamps Nps time info data2
      (ier, info, data3, ls10)

/-- The C function `geneactiv_read_block`: skip 2 lines; read the
sequence number `N` from column 16 of line 3 and update `max_n`; read
the clock-stamp line (`GN_READ_E_BLOCK_TIMESTAMP` if the stream ends);
skip a line; read the temperature from column 12 and replicate it over
the block's `GN_SAMPLES` temperature slots; skip 2 lines; read the
block's sampling rate from column 22 and compare with the header rate
(first mismatch: bump `fs_err`, overwrite `info.fs`, warn; later
mismatches: `GN_READ_E_BLOCK_FS`); then read and decode the data line.
Stream exhaustion at a `GN_READLINE` yields the modelled
`GN_READ_E_FORMAT` (the write into the global `warn_str` message buffer
is not represented). -/
def geneactiv_read_block (info : GN_Info) (data : GN_Data)
    (ls : List (List Char)) :
    GNRead × GN_Info × GN_Data × List (List Char) :=
  match popLine ls with
  | none => (.GN_READ_E_FORMAT, info, data, ls)
  | some (_, ls1) =>
  match popLine ls1 with
  | none => (.GN_READ_E_FORMAT, info, data, ls1)
  | some (_, ls2) =>
  match popLine ls2 with
  | none => (.GN_READ_E_FORMAT, info, data, ls2)
  | some (buff3, ls3) =>
  let N : ℤ := strtol (buff3.drop 16) 10
  let Nps : ℤ := N * (GN_SAMPLES : ℤ)
  let info1 := { info with max_n := if N > info.max_n then N else info.max_n }
  match popLine ls3 with
  | none => (.GN_READ_E_BLOCK_TIMESTAMP, info1, data, ls3)
  | some (time, ls4) =>
  match popLine ls4 with
  | none => (.GN_READ_E_FORMAT, info1, data, ls4)
  | some (_, ls5) =>
  match popLine ls5 with
  | none => (.GN_READ_E_FORMAT, info1, data, ls5)
  | some (buff6, ls6) =>
  let temp := strtod (buff6.drop 12)
  let data1 : GN_Data :=
    { data with
      temp := fun i =>
        if Nps ≤ i ∧ i < Nps + (GN_SAMPLES : ℤ) then temp else data.temp i }
  match popLine ls6 with
  | none => (.GN_READ_E_FORMAT, info1, data1, ls6)
  | some (_, ls7) =>
  match popLine ls7 with
  | none => (.GN_READ_E_FORMAT, info1, data1, ls7)
  | some (_, ls8) =>
  match popLine ls8 with
  | none => (.GN_READ_E_FORMAT, info1, data1, ls8)
  | some (buff9, ls9) =>
  let fs := strtod (buff9.drop 22)
  if fs ≠ info1.fs ∧ info1.fs_err < 1 then
    read_block_rest .GN_READ_E_BLOCK_FS_WARN Nps time
      { info1 with fs_err := info1.fs_err + 1, fs := fs } data1 ls9
  else if fs ≠ info1.fs ∧ 1 ≤ info1.fs_err then
    (.GN_READ_E_BLOCK_FS, info1, data1, ls9)
  else
    read_block_rest .GN_READ_E_NONE Nps time info1 data1 ls9

/-! ## Rolling-median binding (`rolling_median.c`) -/

/-- A flat numeric array with a shape, standing for the C-contiguous
NumPy array of the binding (`data.length = shape.prod` for a well-formed
array). -/
structure NDArray where
  shape : List ℕ
  data : List ℚ

/-- Element access with zero for out-of-range indices (the zero padding
of `GSL_MOVSTAT_END_PADZERO`). -/
def getZeroQ (xs : List ℚ) (i : ℤ) : ℚ :=
  if 0 ≤ i ∧ i < (xs.length : ℤ) then xs.getD i.toNat 0 else 0

/-- Median of a list: middle element of the sorted list (the order
statistic GSL computes; windows here always have odd length). -/
def medianQ (l : List ℚ) : ℚ :=
  (l.insertionSort (fun a b => a ≤ b)).getD (l.length / 2) 0

/-- Modelled from the spec: `gsl_movstat_median` with
`GSL_MOVSTAT_END_PADZERO` on a workspace from `gsl_movstat_alloc(wlen)`
(window `[i - wlen/2, i + wlen/2]`), §6's moving-window statistics
collaborator: a same-length sequence of windowed medians with zero
padding at the boundaries. -/
def movstat_median_padzero (wlen : ℕ) (xs : List ℚ) : List ℚ :=
  let H := wlen / 2
  (List.range xs.length).map (fun i : ℕ =>
    medianQ ((List.range (2 * H + 1)).map (fun k : ℕ =>
      getZeroQ xs ((i : ℤ) + (k : ℤ) - (H : ℤ)))))

/-- The C binding `roll_median`: output array of the same shape
(`PyArray_EMPTY(ndim, ddims, ...)`), then `nrepeats = size / stride`
applications of the moving median to the consecutive length-`stride`
slices along the last axis (`stride = ddims[ndim-1]`). -/
def roll_median (x : NDArray) (wlen : ℕ) : NDArray :=
  let stride := x.shape.getLastD 1
  let nrepeats := x.data.length / stride
  { shape := x.shape
    data := ((List.range nrepeats).map (fun i =>
      movstat_median_padzero wlen ((x.data.drop (i * stride)).take stride))).flatten }

/-! ## Characterisation of the decode loop -/

lemma decode_aux_ts_temp (info : GN_Info) (ds : List Char) (Nps : ℤ)
    (n : ℕ) (d : GN_Data) :
    ((List.range n).foldl (write_sample_group info ds Nps) d).ts = d.ts ∧
      ((List.range n).foldl (write_sample_group info ds Nps) d).temp = d.temp := by
  induction n with
  | zero => exact ⟨rfl, rfl⟩
  | succ n ih =>
    rw [List.range_succ, List.foldl_append, List.foldl_cons, List.foldl_nil]
    exact ⟨by simp only [write_sample_group]; exact ih.1,
           by simp only [write_sample_group]; exact ih.2⟩

lemma decode_aux_acc_outside (info : GN_Info) (ds : List Char) (Nps : ℤ)
    (n : ℕ) (d : GN_Data) (i : ℤ)
    (h : i < Nps * 3 ∨ Nps * 3 + 3 * (n : ℤ) ≤ i) :
    ((List.range n).foldl (write_sample_group info ds Nps) d).acc i = d.acc i := by
  induction n with
  | zero => rfl
  | succ n ih =>
    rw [List.range_succ, List.foldl_append, List.foldl_cons, List.foldl_nil]
    simp only [write_sample_group, updZ]
    have hc : i < Nps * 3 ∨ Nps * 3 + 3 * (n : ℤ) ≤ i := by
      rcases h with h | h
      · exact Or.inl h
      · right; push_cast at h ⊢; omega
    rw [if_neg (by rcases h with h | h <;> (push_cast at h ⊢; omega)),
      if_neg (by rcases h with h | h <;> (push_cast at h ⊢; omega)),
      if_neg (by rcases h with h | h <;> (push_cast at h ⊢; omega))]
    exact ih hc

lemma decode_aux_light_outside (info : GN_Info) (ds : List Char) (Nps : ℤ)
    (n : ℕ) (d : GN_Data) (i : ℤ)
    (h : i < Nps ∨ Nps + (n : ℤ) ≤ i) :
    ((List.range n).foldl (write_sample_group info ds Nps) d).light i = d.light i := by
  induction n with
  | zero => rfl
  | succ n ih =>
    rw [List.range_succ, List.foldl_append, List.foldl_cons, List.foldl_nil]
    simp only [write_sample_group, updZ]
    have hc : i < Nps ∨ Nps + (n : ℤ) ≤ i := by
      rcases h with h | h
      · exact Or.inl h
      · right; push_cast at h ⊢; omega
    rw [if_neg (by rcases h with h | h <;> (push_cast at h ⊢; omega))]
    exact ih hc

lemma decode_aux_acc_at (info : GN_Info) (ds : List Char) (Nps : ℤ)
    (n : ℕ) (d : GN_Data) (g k : ℕ) (hg : g < n) (hk : k < 3) :
    ((List.range n).foldl (write_sample_group info ds Nps) d).acc
        (Nps * 3 + 3 * (g : ℤ) + (k : ℤ)) = acc_val info ds g ⟨k, hk⟩ := by
  induction n with
  | zero => exact absurd hg (Nat.not_lt_zero g)
  | succ n ih =>
    rw [List.range_succ, List.foldl_append, List.foldl_cons, List.foldl_nil]
    simp only [write_sample_group, updZ]
    by_cases hgn : g = n
    · subst hgn
      interval_cases k
      · rw [if_neg (by push_cast; omega), if_neg (by push_cast; omega),
          if_pos (by push_cast; ring)]
        rfl
      · rw [if_neg (by push_cast; omega), if_pos (by push_cast; ring)]
        rfl
      · rw [if_pos (by push_cast; ring)]
        rfl
    · have hgn2 : g < n := by omega
      rw [if_neg (by push_cast; omega), if_neg (by push_cast; omega),
        if_neg (by push_cast; omega)]
      exact ih hgn2

lemma decode_aux_light_at (info : GN_Info) (ds : List Char) (Nps : ℤ)
    (n : ℕ) (d : GN_Data) (g : ℕ) (hg : g < n) :
    ((List.range n).foldl (write_sample_group info ds Nps) d).light
        (Nps + (g : ℤ)) = light_val info ds g := by
  induction n with
  | zero => exact absurd hg (Nat.not_lt_zero g)
  | succ n ih =>
    rw [List.range_succ, List.foldl_append, List.foldl_cons, List.foldl_nil]
    simp only [write_sample_group, updZ]
    by_cases hgn : g = n
    · subst hgn
      rw [if_pos rfl]
    · have hgn2 : g < n := by omega
      rw [if_neg (by push_cast; omega)]
      exact ih hgn2

lemma decode_block_data_ts (info : GN_Info) (ds : List Char) (Nps : ℤ)
    (d : GN_Data) : (decode_block_data info ds Nps d).ts = d.ts :=
  (decode_aux_ts_temp info ds Nps GN_SAMPLES d).1

lemma decode_block_data_temp (info : GN_Info) (ds : List Char) (Nps : ℤ)
    (d : GN_Data) : (decode_block_data info ds Nps d).temp = d.temp :=
  (decode_aux_ts_temp info ds Nps GN_SAMPLES d).2

lemma decode_block_data_acc_at (info : GN_Info) (ds : List Char) (Nps : ℤ)
    (d : GN_Data) (g k : ℕ) (hg : g < GN_SAMPLES) (hk : k < 3) :
    (decode_block_data info ds Nps d).acc (Nps * 3 + 3 * (g : ℤ) + (k : ℤ)) =
      acc_val info ds g ⟨k, hk⟩ :=
  decode_aux_acc_at info ds Nps GN_SAMPLES d g k hg hk

lemma decode_block_data_acc_outside (info : GN_Info) (ds : List Char)
    (Nps : ℤ) (d : GN_Data) (i : ℤ)
    (h : i < Nps * 3 ∨ Nps * 3 + 3 * (GN_SAMPLES : ℤ) ≤ i) :
    (decode_block_data info ds Nps d).acc i = d.acc i :=
  decode_aux_acc_outside info ds Nps GN_SAMPLES d i h

lemma decode_block_data_light_at (info : GN_Info) (ds : List Char) (Nps : ℤ)
    (d : GN_Data) (g : ℕ) (hg : g < GN_SAMPLES) :
    (decode_block_data info ds Nps d).light (Nps + (g : ℤ)) =
      light_val info ds g :=
  decode_aux_light_at info ds Nps GN_SAMPLES d g hg

lemma decode_block_data_light_outside (info : GN_Info) (ds : List Char)
    (Nps : ℤ) (d : GN_Data) (i : ℤ)
    (h : i < Nps ∨ Nps + (GN_SAMPLES : ℤ) ≤ i) :
    (decode_block_data info ds Nps d).light i = d.light i :=
  decode_aux_light_outside info ds Nps GN_SAMPLES d i h

/-! ## Bounds for hex data fields -/

/-- The 22 characters that are valid hexadecimal digits for C
`strtol(..., 16)`. -/
def hexDigits : List Char :=
  ['F', 'E', 'D', 'C', 'B', 'A', 'f', 'e', 'd', 'c', 'b', 'a',
   '9', '8', '7', '6', '5', '4', '3', '2', '1', '0']

/-- Whether a character is a hexadecimal digit. -/
def isHexDigitChar (c : Char) : Bool := decide (c ∈ hexDigits)

lemma hex_char_neq (c : Char) (h : isHexDigitChar c = true) :
    c.isWhitespace = false ∧ c ≠ '-' ∧ c ≠ '+' ∧ c ≠ 'x' ∧ c ≠ 'X' := by
  simp only [isHexDigitChar, hexDigits, decide_eq_true_eq, List.mem_cons,
    List.not_mem_nil, or_false] at h
  rcases h with rfl|rfl|rfl|rfl|rfl|rfl|rfl|rfl|rfl|rfl|rfl|rfl|rfl|rfl|rfl|
    rfl|rfl|rfl|rfl|rfl|rfl|rfl <;> decide

lemma digitsAcc_lt (base : ℕ) (hb : 1 ≤ base) (s : List Char) :
    ∀ acc : ℕ, digitsAcc base s acc < (acc + 1) * base ^ s.length := by
  induction s with
  | nil => intro acc; simp [digitsAcc]
  | cons c cs ih =>
    intro acc
    have hpow : 0 < base ^ (cs.length + 1) := by positivity
    simp only [digitsAcc, List.length_cons]
    cases hdv : digitVal c with
    | none =>
      calc acc < acc + 1 := Nat.lt_succ_self acc
        _ ≤ (acc + 1) * base ^ (cs.length + 1) :=
            Nat.le_mul_of_pos_right _ hpow
    | some v =>
      by_cases hv : v < base
      · simp only [hv, if_true]
        calc digitsAcc base cs (acc * base + v)
            < (acc * base + v + 1) * base ^ cs.length := ih _
          _ ≤ ((acc + 1) * base) * base ^ cs.length := by
              apply Nat.mul_le_mul_right
              rw [Nat.add_mul, one_mul]
              omega
          _ = (acc + 1) * base ^ (cs.length + 1) := by ring
      · simp only [hv, if_false]
        calc acc < acc + 1 := Nat.lt_succ_self acc
          _ ≤ (acc + 1) * base ^ (cs.length + 1) :=
              Nat.le_mul_of_pos_right _ hpow

lemma strtolDigits_16_lt (s : List Char)
    (hs : ∀ c ∈ s, isHexDigitChar c = true) :
    strtolDigits 16 s < 16 ^ s.length := by
  have key : ∀ t : List Char, digitsAcc 16 t 0 < 16 ^ t.length := fun t => by
    simpa using digitsAcc_lt 16 (by norm_num) t 0
  cases s with
  | nil => simpa [strtolDigits] using key []
  | cons c0 t =>
    cases t with
    | nil => simpa [strtolDigits] using key [c0]
    | cons c1 rest =>
      have h1 := hex_char_neq c1 (hs c1 (by simp))
      simp only [strtolDigits]
      rw [if_neg (by rintro ⟨-, -, h | h⟩
                     · exact h1.2.2.2.1 h
                     · exact h1.2.2.2.2 h)]
      exact key (c0 :: c1 :: rest)

lemma strtol_hex_bound (s : List Char)
    (hs : ∀ c ∈ s, isHexDigitChar c = true) (hlen : s.length ≤ 3) :
    0 ≤ strtol s 16 ∧ strtol s 16 < 4096 := by
  have hdw : s.dropWhile (fun c => c.isWhitespace) = s := by
    cases s with
    | nil => rfl
    | cons c cs =>
      rw [List.dropWhile_cons, if_neg]
      simp [(hex_char_neq c (hs c (by simp))).1]
  have hbound : ∀ t : List Char, t.length ≤ 3 →
      (∀ c ∈ t, isHexDigitChar c = true) → strtolDigits 16 t < 4096 := by
    intro t ht hct
    calc strtolDigits 16 t < 16 ^ t.length := strtolDigits_16_lt t hct
      _ ≤ 16 ^ 3 := Nat.pow_le_pow_right (by norm_num) ht
      _ = 4096 := by norm_num
  cases s with
  | nil => simp [strtol, strtolDigits, digitsAcc]
  | cons c cs =>
    have hc := hex_char_neq c (hs c (by simp))
    simp only [strtol, hdw]
    rw [if_neg hc.2.1, if_neg hc.2.2.1]
    constructor
    · exact Int.ofNat_nonneg _
    · exact_mod_cast hbound (c :: cs) hlen hs

lemma hex3_bound (ds : List Char) (off : ℕ)
    (hds : ∀ c ∈ ds, isHexDigitChar c = true) :
    0 ≤ hex3 ds off ∧ hex3 ds off < 4096 := by
  apply strtol_hex_bound
  · intro c hc
    exact hds c (List.mem_of_mem_drop (List.mem_of_mem_take hc))
  · exact List.length_take_le 3 _

lemma shr2_bound (t : ℤ) (h0 : 0 ≤ t) (h1 : t < 4096) :
    0 ≤ shr2 t ∧ shr2 t ≤ 1023 := by
  unfold shr2
  rw [Int.fdiv_eq_ediv _ (by norm_num)]
  omega

/-! ## Concrete inputs used by the witnesses -/

/-- Concrete header state for witnesses: 100 Hz, unit gain, zero offset,
unit light scale. -/
def cInfo : GN_Info :=
  { fs := 100, gain := ![1, 1, 1], offset := ![0, 0, 0], volts := 1,
    lux := 1, npages := 1, max_n := 0, fs_err := 0 }

/-- All-zero sample buffers for witnesses. -/
def zeroData : GN_Data :=
  { ts := fun _ => 0, acc := fun _ => 0, light := fun _ => 0,
    temp := fun _ => 0 }

/-! ## Claims about the hex decode (C1, C6, C10) -/

/-- C1: for every sample group of a decoded block and every acceleration
axis, the raw unsigned 12-bit field `v` is adjusted to `v - 4096` exactly
when `v > 2047` (raw 2048 yields -2048, raw 2047 stays 2047), and the
buffer receives `(adjusted * 100 - offset[axis]) / gain[axis]`. -/
theorem C1_accel_twos_complement_calibration (info : GN_Info)
    (d : GN_Data) (ds : List Char) (Nps : ℤ) (g : ℕ) (k : Fin 3)
    (hg : g < GN_SAMPLES) :
    (decode_block_data info ds Nps d).acc
        (Nps * 3 + 3 * (g : ℤ) + (k.val : ℤ)) =
      (((twos_adjust (hex3 ds (12 * g + 3 * k.val)) : ℤ) : ℚ) * 100
          - info.offset k) / info.gain k
    ∧ (∀ v : ℤ, twos_adjust v = if v > 2047 then v - 4096 else v)
    ∧ twos_adjust 2048 = -2048 ∧ twos_adjust 2047 = 2047 := by
  refine ⟨?_, ?_, by decide, by decide⟩
  · have h := decode_block_data_acc_at info ds Nps d g k.val hg k.isLt
    rw [Fin.eta] at h
    simpa [acc_val] using h
  · intro v
    simp only [twos_adjust]
    split_ifs <;> ring

/-- Witness for C1: group 0, axis x, field `800` (raw 2048). -/
theorem C1_witness :
    (0 : ℕ) < GN_SAMPLES ∧
    ((decode_block_data cInfo "800".toList 0 zeroData).acc
        (0 * 3 + 3 * ((0 : ℕ) : ℤ) + (((0 : Fin 3)).val : ℤ)) =
      (((twos_adjust (hex3 "800".toList (12 * 0 + 3 * (0 : Fin 3).val)) : ℤ) : ℚ) * 100
          - cInfo.offset 0) / cInfo.gain 0
    ∧ (∀ v : ℤ, twos_adjust v = if v > 2047 then v - 4096 else v)
    ∧ twos_adjust 2048 = -2048 ∧ twos_adjust 2047 = 2047) :=
  ⟨by decide, C1_accel_twos_complement_calibration cInfo zeroData
    "800".toList 0 0 0 (by decide)⟩

/-- C6: the light value written for sample group `g` is the raw 12-bit
light field arithmetically shifted right by two bits — with no
two's-complement adjustment — multiplied by `lux / volts`; on an
all-zero data line every light sample decodes to exactly 0. -/
theorem C6_light_decode (info : GN_Info) (d : GN_Data) (ds : List Char)
    (Nps : ℤ) (g : ℕ) (hg : g < GN_SAMPLES) :
    (decode_block_data info ds Nps d).light (Nps + (g : ℤ)) =
      ((shr2 (hex3 ds (12 * g + 9)) : ℤ) : ℚ) * (info.lux / info.volts)
    ∧ (∀ g2 : ℕ, g2 < GN_SAMPLES →
        (decode_block_data info (List.replicate 3600 '0') Nps d).light
          (Nps + (g2 : ℤ)) = 0) := by
  constructor
  · simpa [light_val] using decode_block_data_light_at info ds Nps d g hg
  · intro g2 hg2
    rw [decode_block_data_light_at info _ Nps d g2 hg2]
    have hg2n : g2 < 300 := hg2
    have hslice : ((List.replicate 3600 '0').drop (12 * g2 + 9)).take 3
        = ['0', '0', '0'] := by
      rw [List.drop_replicate, List.take_replicate]
      have hm : min 3 (3600 - (12 * g2 + 9)) = 3 := by omega
      rw [hm]
      rfl
    have h0 : strtol (['0', '0', '0'] : List Char) 16 = 0 := by decide
    have h00 : shr2 0 = 0 := by decide
    unfold light_val hex3
    rw [hslice, h0, h00]
    norm_num

/-- Witness for C6: group 0, light field `fff`. -/
theorem C6_witness :
    (0 : ℕ) < GN_SAMPLES ∧
    ((decode_block_data cInfo "fff".toList 0 zeroData).light (0 + ((0 : ℕ) : ℤ)) =
      ((shr2 (hex3 "fff".toList (12 * 0 + 9)) : ℤ) : ℚ) * (cInfo.lux / cInfo.volts)
    ∧ (∀ g2 : ℕ, g2 < GN_SAMPLES →
        (decode_block_data cInfo (List.replicate 3600 '0') 0 zeroData).light
          (0 + (g2 : ℤ)) = 0)) :=
  ⟨by decide, C6_light_decode cInfo zeroData "fff".toList 0 0 (by decide)⟩

/-- C10: with positive `lux` and `volts` and a hex-digit data line, the
shifted raw light field of every group lies in [0, 1023], and starting
from a non-negative light buffer every entry of the light buffer is
non-negative after the block decode. -/
theorem C10_light_nonneg (info : GN_Info) (d : GN_Data) (ds : List Char)
    (Nps : ℤ) (hlux : 0 < info.lux) (hvolts : 0 < info.volts)
    (hds : ∀ c ∈ ds, isHexDigitChar c = true)
    (hd : ∀ i : ℤ, 0 ≤ d.light i) :
    (∀ g : ℕ, 0 ≤ shr2 (hex3 ds (12 * g + 9))
        ∧ shr2 (hex3 ds (12 * g + 9)) ≤ 1023)
    ∧ (∀ i : ℤ, 0 ≤ (decode_block_data info ds Nps d).light i) := by
  have hb : ∀ g : ℕ, 0 ≤ shr2 (hex3 ds (12 * g + 9))
      ∧ shr2 (hex3 ds (12 * g + 9)) ≤ 1023 := by
    intro g
    have h := hex3_bound ds (12 * g + 9) hds
    exact shr2_bound _ h.1 h.2
  refine ⟨hb, ?_⟩
  intro i
  have hGN : (GN_SAMPLES : ℤ) = 300 := by norm_num [GN_SAMPLES]
  by_cases hi : Nps ≤ i ∧ i < Nps + (GN_SAMPLES : ℤ)
  · obtain ⟨hi1, hi2⟩ := hi
    rw [hGN] at hi2
    have hglt : (i - Nps).toNat < GN_SAMPLES := by
      have : ((i - Nps).toNat : ℤ) = i - Nps := Int.toNat_of_nonneg (by omega)
      have h3 : ((i - Nps).toNat : ℤ) < 300 := by omega
      have : (GN_SAMPLES : ℕ) = 300 := rfl
      omega
    have hat := decode_block_data_light_at info ds Nps d (i - Nps).toNat hglt
    rw [show Nps + ((i - Nps).toNat : ℤ) = i by
      have : ((i - Nps).toNat : ℤ) = i - Nps := Int.toNat_of_nonneg (by omega)
      omega] at hat
    rw [hat]
    unfold light_val
    have h1 := hb (i - Nps).toNat
    have h2 : (0 : ℚ) ≤ ((shr2 (hex3 ds (12 * (i - Nps).toNat + 9)) : ℤ) : ℚ) := by
      exact_mod_cast h1.1
    have h3 : (0 : ℚ) ≤ info.lux / info.volts := le_of_lt (div_pos hlux hvolts)
    exact mul_nonneg h2 h3
  · have hout : i < Nps ∨ Nps + (GN_SAMPLES : ℤ) ≤ i := by
      rcases not_and_or.mp hi with h | h
      · left; omega
      · rw [hGN] at h ⊢; omega
    rw [decode_block_data_light_outside info ds Nps d i hout]
    exact hd i

/-- Witness for C10: buffer entry 0 after decoding the field `fff`. -/
theorem C10_witness :
    (0 : ℚ) < cInfo.lux ∧ (0 : ℚ) < cInfo.volts ∧
      (∀ c ∈ "fff".toList, isHexDigitChar c = true) ∧
      0 ≤ (decode_block_data cInfo "fff".toList 0 zeroData).light 0 :=
  ⟨by norm_num [cInfo], by norm_num [cInfo], by decide,
    (C10_light_nonneg cInfo zeroData "fff".toList 0 (by norm_num [cInfo])
      (by norm_num [cInfo]) (by decide) (fun _ => le_refl 0)).2 0⟩

/-! ## Claim C5: per-sample timestamps -/

/-- Epoch time of a block's first sample: UTC calendar-to-epoch
conversion of the clock-stamp fields plus the millisecond field as a
fraction of a second. -/
def block_t0 (time : List Char) : ℚ :=
  (timegm (GN_DATE_YEAR time - 1900) (GN_DATE_MONTH time - 1)
      (GN_DATE_DAY time) (GN_DATE_HOUR time) (GN_DATE_MIN time)
      (GN_DATE_SEC time) : ℚ) + (GN_DATE_MSEC time : ℚ) / 1000

/-- C5: sample `j` of a decoded block gets timestamp
`epoch(block start) + j / fs` where the epoch time is the UTC
calendar-to-epoch conversion of the clock fields plus the millisecond
fraction; for `fs > 0` the in-block timestamps are strictly increasing
with constant spacing `1 / fs`. -/
theorem C5_timestamps (Nps : ℤ) (time : List Char) (info : GN_Info)
    (d : GN_Data) :
    (∀ j : ℕ, j < GN_SAMPLES →
      (get_timestamps Nps time info d).ts (Nps + (j : ℤ)) =
        block_t0 time + (j : ℚ) / info.fs)
    ∧ (0 < info.fs → ∀ j : ℕ, j + 1 < GN_SAMPLES →
        (get_timestamps Nps time info d).ts (Nps + (j : ℤ) + 1)
            - (get_timestamps Nps time info d).ts (Nps + (j : ℤ)) = 1 / info.fs
        ∧ (get_timestamps Nps time info d).ts (Nps + (j : ℤ)) <
            (get_timestamps Nps time info d).ts (Nps + (j : ℤ) + 1)) := by
  have hGN : (GN_SAMPLES : ℤ) = 300 := by norm_num [GN_SAMPLES]
  have key : ∀ j : ℕ, j < GN_SAMPLES →
      (get_timestamps Nps time info d).ts (Nps + (j : ℤ)) =
        block_t0 time + (j : ℚ) / info.fs := by
    intro j hj
    have hjn : j < 300 := hj
    simp only [get_timestamps]
    rw [if_pos (by constructor
                   · omega
                   · rw [hGN]; omega)]
    have harg : (Nps + (j : ℤ) - Nps) = (j : ℤ) := by ring
    rw [harg]
    simp only [block_t0]
    push_cast
    ring
  refine ⟨key, ?_⟩
  intro hfs j hj
  have hj2 : j < GN_SAMPLES := by omega
  have k1 := key j hj2
  have k2 := key (j + 1) hj
  rw [show Nps + ((j + 1 : ℕ) : ℤ) = Nps + (j : ℤ) + 1 by push_cast; ring] at k2
  push_cast at k2
  constructor
  · rw [k1, k2, add_div]
    ring
  · rw [k1, k2]
    have hlt : ((j : ℚ)) / info.fs < ((j : ℚ) + 1) / info.fs :=
      (div_lt_div_iff_of_pos_right hfs).mpr (by norm_num)
    linarith

/-- Clock-stamp line used by witnesses. -/
def wTime : List Char := "Page Time:2016-06-02 10:33:10:500".toList

/-- Witness for C5 at `Nps = 0`, `j = 0`, 100 Hz. -/
theorem C5_witness :
    (0 : ℚ) < cInfo.fs ∧
    (get_timestamps 0 wTime cInfo zeroData).ts (0 + ((0 : ℕ) : ℤ)) =
      block_t0 wTime + ((0 : ℕ) : ℚ) / cInfo.fs ∧
    (get_timestamps 0 wTime cInfo zeroData).ts (0 + ((0 : ℕ) : ℤ) + 1)
        - (get_timestamps 0 wTime cInfo zeroData).ts (0 + ((0 : ℕ) : ℤ)) =
      1 / cInfo.fs :=
  ⟨by norm_num [cInfo],
   (C5_timestamps 0 wTime cInfo zeroData).1 0 (by decide),
   ((C5_timestamps 0 wTime cInfo zeroData).2 (by norm_num [cInfo]) 0
      (by decide)).1⟩

/-! ## Path lemmas for the block reader -/

lemma read_block_cons_none (info : GN_Info) (d : GN_Data)
    (l1 l2 l3 l4 l5 l6 l7 l8 l9 : List Char) (rest : List (List Char))
    (hfs : strtod ((l9 ++ ['\n']).drop 22) = info.fs) :
    geneactiv_read_block info d
        (l1 :: l2 :: l3 :: l4 :: l5 :: l6 :: l7 :: l8 :: l9 :: rest) =
      read_block_rest .GN_READ_E_NONE
        (strtol ((l3 ++ ['\n']).drop 16) 10 * (GN_SAMPLES : ℤ))
        (l4 ++ ['\n'])
        { info with max_n := if strtol ((l3 ++ ['\n']).drop 16) 10 > info.max_n
            then strtol ((l3 ++ ['\n']).drop 16) 10 else info.max_n }
        { d with temp := fun i =>
            if strtol ((l3 ++ ['\n']).drop 16) 10 * (GN_SAMPLES : ℤ) ≤ i ∧
               i < strtol ((l3 ++ ['\n']).drop 16) 10 * (GN_SAMPLES : ℤ) + (GN_SAMPLES : ℤ)
            then strtod ((l6 ++ ['\n']).drop 12) else d.temp i }
        rest := by
  simp only [geneactiv_read_block, popLine]
  rw [if_neg (by simp [hfs]), if_neg (by simp [hfs])]

lemma read_block_cons_warn (info : GN_Info) (d : GN_Data)
    (l1 l2 l3 l4 l5 l6 l7 l8 l9 : List Char) (rest : List (List Char))
    (hfs : strtod ((l9 ++ ['\n']).drop 22) ≠ info.fs)
    (h0 : info.fs_err = 0) :
    geneactiv_read_block info d
        (l1 :: l2 :: l3 :: l4 :: l5 :: l6 :: l7 :: l8 :: l9 :: rest) =
      read_block_rest .GN_READ_E_BLOCK_FS_WARN
        (strtol ((l3 ++ ['\n']).drop 16) 10 * (GN_SAMPLES : ℤ))
        (l4 ++ ['\n'])
        { info with
          max_n := if strtol ((l3 ++ ['\n']).drop 16) 10 > info.max_n
            then strtol ((l3 ++ ['\n']).drop 16) 10 else info.max_n,
          fs_err := info.fs_err + 1,
          fs := strtod ((l9 ++ ['\n']).drop 22) }
        { d with temp := fun i =>
            if strtol ((l3 ++ ['\n']).drop 16) 10 * (GN_SAMPLES : ℤ) ≤ i ∧
               i < strtol ((l3 ++ ['\n']).drop 16) 10 * (GN_SAMPLES : ℤ) + (GN_SAMPLES : ℤ)
            then strtod ((l6 ++ ['\n']).drop 12) else d.temp i }
        rest := by
  simp only [geneactiv_read_block, popLine]
  rw [if_pos (by exact ⟨by simpa using hfs, by simp [h0]⟩)]

lemma read_block_cons_fserr (info : GN_Info) (d : GN_Data)
    (l1 l2 l3 l4 l5 l6 l7 l8 l9 : List Char) (rest : List (List Char))
    (hfs : strtod ((l9 ++ ['\n']).drop 22) ≠ info.fs)
    (h1 : 1 ≤ info.fs_err) :
    geneactiv_read_block info d
        (l1 :: l2 :: l3 :: l4 :: l5 :: l6 :: l7 :: l8 :: l9 :: rest) =
      (.GN_READ_E_BLOCK_FS,
        { info with max_n := if strtol ((l3 ++ ['\n']).drop 16) 10 > info.max_n
            then strtol ((l3 ++ ['\n']).drop 16) 10 else info.max_n },
        { d with temp := fun i =>
            if strtol ((l3 ++ ['\n']).drop 16) 10 * (GN_SAMPLES : ℤ) ≤ i ∧
               i < strtol ((l3 ++ ['\n']).drop 16) 10 * (GN_SAMPLES : ℤ) + (GN_SAMPLES : ℤ)
            then strtod ((l6 ++ ['\n']).drop 12) else d.temp i },
        rest) := by
  simp only [geneactiv_read_block, popLine]
  rw [if_neg (by simp; intro h; omega), if_pos (by exact ⟨by simpa using hfs, by simpa using h1⟩)]

lemma read_block_rest_ok (ier : GNRead) (Nps : ℤ) (time : List Char)
    (info : GN_Info) (d : GN_Data) (l10 : List Char)
    (rest : List (List Char)) (hlen : 3600 ≤ l10.length) :
    read_block_rest ier Nps time info d (l10 :: rest) =
      (ier, info,
        get_timestamps Nps time info
          (decode_block_data info (l10 ++ ['\n']) Nps d),
        rest) := by
  simp only [read_block_rest, popLine]
  rw [if_neg (by simp only [List.length_append, List.length_cons,
    List.length_nil]; omega)]

lemma read_block_rest_short (ier : GNRead) (Nps : ℤ) (time : List Char)
    (info : GN_Info) (d : GN_Data) (l10 : List Char)
    (rest : List (List Char)) (hlen : l10.length < 3600) :
    read_block_rest ier Nps time info d (l10 :: rest) =
      (.GN_READ_E_BLOCK_DATA_3600, info, d, rest) := by
  simp only [read_block_rest, popLine]
  rw [if_pos (by simp only [List.length_append, List.length_cons,
    List.length_nil]; omega)]

lemma read_block_rest_absent (ier : GNRead) (Nps : ℤ) (time : List Char)
    (info : GN_Info) (d : GN_Data) :
    read_block_rest ier Nps time info d [] =
      (.GN_READ_E_BLOCK_DATA, info, d, []) := rfl

/-! ## Projection helpers for `get_timestamps` -/

lemma get_timestamps_acc (Nps : ℤ) (time : List Char) (info : GN_Info)
    (d : GN_Data) : (get_timestamps Nps time info d).acc = d.acc := rfl

lemma get_timestamps_light (Nps : ℤ) (time : List Char) (info : GN_Info)
    (d : GN_Data) : (get_timestamps Nps time info d).light = d.light := rfl

lemma get_timestamps_temp (Nps : ℤ) (time : List Char) (info : GN_Info)
    (d : GN_Data) : (get_timestamps Nps time info d).temp = d.temp := rfl

lemma get_timestamps_ts_at (Nps : ℤ) (time : List Char) (info : GN_Info)
    (d : GN_Data) (j : ℕ) (hj : j < GN_SAMPLES) :
    (get_timestamps Nps time info d).ts (Nps + (j : ℤ)) =
      block_t0 time + (j : ℚ) / info.fs := by
  have hGN : (GN_SAMPLES : ℤ) = 300 := by norm_num [GN_SAMPLES]
  have hjn : j < 300 := hj
  simp only [get_timestamps]
  rw [if_pos (by constructor
                 · omega
                 · rw [hGN]; omega)]
  have harg : (Nps + (j : ℤ) - Nps) = (j : ℤ) := by ring
  rw [harg]
  simp only [block_t0]
  push_cast
  ring

lemma get_timestamps_ts_outside (Nps : ℤ) (time : List Char)
    (info : GN_Info) (d : GN_Data) (i : ℤ)
    (h : i < Nps ∨ Nps + (GN_SAMPLES : ℤ) ≤ i) :
    (get_timestamps Nps time info d).ts i = d.ts i := by
  simp only [get_timestamps]
  rw [if_neg (by rcases h with h | h <;> omega)]

/-! ## Claim C7: sample placement by sequence number -/

/-- C7: a successfully decoded block with sequence number `N` writes its
samples at absolute sample offset `N * GN_SAMPLES` (acceleration at
element offset `N * GN_SAMPLES * 3`), replicates its single temperature
reading into all `GN_SAMPLES` temperature slots of the block, and leaves
every buffer entry outside the block's ranges unchanged. -/
theorem C7_block_offsets (info : GN_Info) (d : GN_Data)
    (l1 l2 l3 l4 l5 l6 l7 l8 l9 l10 : List Char) (rest : List (List Char))
    (N Nps : ℤ)
    (hN : N = strtol ((l3 ++ ['\n']).drop 16) 10)
    (hNps : Nps = N * (GN_SAMPLES : ℤ))
    (r : GNRead × GN_Info × GN_Data × List (List Char))
    (hr : r = geneactiv_read_block info d
      (l1 :: l2 :: l3 :: l4 :: l5 :: l6 :: l7 :: l8 :: l9 :: l10 :: rest))
    (hfs : strtod ((l9 ++ ['\n']).drop 22) = info.fs)
    (hlen : 3600 ≤ l10.length) :
    r.1 = .GN_READ_E_NONE
    ∧ (∀ j : ℕ, j < GN_SAMPLES →
        r.2.2.1.temp (Nps + (j : ℤ)) = strtod ((l6 ++ ['\n']).drop 12))
    ∧ (∀ g : ℕ, g < GN_SAMPLES → ∀ k : Fin 3,
        r.2.2.1.acc (Nps * 3 + 3 * (g : ℤ) + (k.val : ℤ)) =
          acc_val info (l10 ++ ['\n']) g k)
    ∧ (∀ g : ℕ, g < GN_SAMPLES →
        r.2.2.1.light (Nps + (g : ℤ)) = light_val info (l10 ++ ['\n']) g)
    ∧ (∀ j : ℕ, j < GN_SAMPLES →
        r.2.2.1.ts (Nps + (j : ℤ)) =
          block_t0 (l4 ++ ['\n']) + (j : ℚ) / info.fs)
    ∧ (∀ i : ℤ, i < Nps ∨ Nps + (GN_SAMPLES : ℤ) ≤ i →
        r.2.2.1.temp i = d.temp i ∧ r.2.2.1.light i = d.light i ∧
          r.2.2.1.ts i = d.ts i)
    ∧ (∀ i : ℤ, i < Nps * 3 ∨ Nps * 3 + 3 * (GN_SAMPLES : ℤ) ≤ i →
        r.2.2.1.acc i = d.acc i) := by
  have hGN : (GN_SAMPLES : ℤ) = 300 := by norm_num [GN_SAMPLES]
  subst hr
  rw [read_block_cons_none info d l1 l2 l3 l4 l5 l6 l7 l8 l9 (l10 :: rest) hfs,
    read_block_rest_ok _ _ _ _ _ _ _ hlen, ← hN, ← hNps]
  refine ⟨rfl, ?_, ?_, ?_, ?_, ?_, ?_⟩
  · intro j hj
    have hjn : j < 300 := hj
    dsimp only
    rw [get_timestamps_temp, decode_block_data_temp]
    dsimp only
    rw [if_pos (by constructor
                   · omega
                   · rw [hGN]; omega)]
  · intro g hg k
    dsimp only
    rw [get_timestamps_acc]
    have h := decode_block_data_acc_at
      { info with max_n := if N > info.max_n then N else info.max_n }
      (l10 ++ ['\n']) Nps
      { d with temp := fun i =>
          if Nps ≤ i ∧ i < Nps + (GN_SAMPLES : ℤ)
          then strtod ((l6 ++ ['\n']).drop 12) else d.temp i }
      g k.val hg k.isLt
    rw [Fin.eta] at h
    exact h
  · intro g hg
    dsimp only
    rw [get_timestamps_light]
    exact decode_block_data_light_at
      { info with max_n := if N > info.max_n then N else info.max_n }
      (l10 ++ ['\n']) Nps
      { d with temp := fun i =>
          if Nps ≤ i ∧ i < Nps + (GN_SAMPLES : ℤ)
          then strtod ((l6 ++ ['\n']).drop 12) else d.temp i }
      g hg
  · intro j hj
    dsimp only
    exact get_timestamps_ts_at Nps (l4 ++ ['\n']) _ _ j hj
  · intro i hi
    refine ⟨?_, ?_, ?_⟩
    · dsimp only
      rw [get_timestamps_temp, decode_block_data_temp]
      dsimp only
      rw [if_neg (by rcases hi with h | h <;> omega)]
    · dsimp only
      rw [get_timestamps_light]
      exact decode_block_data_light_outside
        { info with max_n := if N > info.max_n then N else info.max_n }
        (l10 ++ ['\n']) Nps
        { d with temp := fun i =>
            if Nps ≤ i ∧ i < Nps + (GN_SAMPLES : ℤ)
            then strtod ((l6 ++ ['\n']).drop 12) else d.temp i }
        i hi
    · dsimp only
      exact get_timestamps_ts_outside Nps (l4 ++ ['\n']) _ _ i hi
  · intro i hi
    dsimp only
    rw [get_timestamps_acc]
    exact decode_block_data_acc_outside
      { info with max_n := if N > info.max_n then N else info.max_n }
      (l10 ++ ['\n']) Nps
      { d with temp := fun i =>
          if Nps ≤ i ∧ i < Nps + (GN_SAMPLES : ℤ)
          then strtod ((l6 ++ ['\n']).drop 12) else d.temp i }
      i hi

/-! ## Claim C2: sampling-rate mismatch policy -/

/-- C2: when a block's declared sampling rate differs from the header
rate — if the mismatch counter is 0, the decoder sets it to 1,
overwrites the header rate with the block's value, returns the
non-fatal `GN_READ_E_BLOCK_FS_WARN`, and the block is still decoded
(timestamps under the new rate); if the counter is already ≥ 1, it
returns `GN_READ_E_BLOCK_FS` and the block's acceleration and light
samples are not written. -/
theorem C2_rate_mismatch_policy (info : GN_Info) (d : GN_Data)
    (l1 l2 l3 l4 l5 l6 l7 l8 l9 l10 : List Char) (rest : List (List Char))
    (N Nps : ℤ) (fsd : ℚ)
    (hN : N = strtol ((l3 ++ ['\n']).drop 16) 10)
    (hNps : Nps = N * (GN_SAMPLES : ℤ))
    (hfsd : fsd = strtod ((l9 ++ ['\n']).drop 22))
    (r : GNRead × GN_Info × GN_Data × List (List Char))
    (hr : r = geneactiv_read_block info d
      (l1 :: l2 :: l3 :: l4 :: l5 :: l6 :: l7 :: l8 :: l9 :: l10 :: rest))
    (hneq : fsd ≠ info.fs) :
    (info.fs_err = 0 → 3600 ≤ l10.length →
      r.1 = .GN_READ_E_BLOCK_FS_WARN
      ∧ r.2.1.fs = fsd ∧ r.2.1.fs_err = 1
      ∧ (∀ g : ℕ, g < GN_SAMPLES → ∀ k : Fin 3,
          r.2.2.1.acc (Nps * 3 + 3 * (g : ℤ) + (k.val : ℤ)) =
            acc_val info (l10 ++ ['\n']) g k)
      ∧ (∀ g : ℕ, g < GN_SAMPLES →
          r.2.2.1.light (Nps + (g : ℤ)) = light_val info (l10 ++ ['\n']) g)
      ∧ (∀ j : ℕ, j < GN_SAMPLES →
          r.2.2.1.ts (Nps + (j : ℤ)) =
            block_t0 (l4 ++ ['\n']) + (j : ℚ) / fsd))
    ∧ (1 ≤ info.fs_err →
      r.1 = .GN_READ_E_BLOCK_FS
      ∧ r.2.2.1.acc = d.acc ∧ r.2.2.1.light = d.light ∧ r.2.2.1.ts = d.ts
      ∧ r.2.1.fs = info.fs ∧ r.2.1.fs_err = info.fs_err) := by
  subst hr
  constructor
  · intro h0 hlen
    rw [read_block_cons_warn info d l1 l2 l3 l4 l5 l6 l7 l8 l9 (l10 :: rest)
        (hfsd ▸ hneq) h0,
      read_block_rest_ok _ _ _ _ _ _ _ hlen, ← hN, ← hNps]
    refine ⟨rfl, by dsimp only; rw [hfsd], by dsimp only; omega, ?_, ?_, ?_⟩
    · intro g hg k
      dsimp only
      rw [get_timestamps_acc]
      have h := decode_block_data_acc_at
        { info with
          max_n := if N > info.max_n then N else info.max_n,
          fs_err := info.fs_err + 1,
          fs := strtod ((l9 ++ ['\n']).drop 22) }
        (l10 ++ ['\n']) Nps
        { d with temp := fun i =>
            if Nps ≤ i ∧ i < Nps + (GN_SAMPLES : ℤ)
            then strtod ((l6 ++ ['\n']).drop 12) else d.temp i }
        g k.val hg k.isLt
      rw [Fin.eta] at h
      exact h
    · intro g hg
      dsimp only
      rw [get_timestamps_light]
      exact decode_block_data_light_at
        { info with
          max_n := if N > info.max_n then N else info.max_n,
          fs_err := info.fs_err + 1,
          fs := strtod ((l9 ++ ['\n']).drop 22) }
        (l10 ++ ['\n']) Nps
        { d with temp := fun i =>
            if Nps ≤ i ∧ i < Nps + (GN_SAMPLES : ℤ)
            then strtod ((l6 ++ ['\n']).drop 12) else d.temp i }
        g hg
    · intro j hj
      dsimp only
      rw [hfsd]
      exact get_timestamps_ts_at Nps (l4 ++ ['\n']) _ _ j hj
  · intro h1
    rw [read_block_cons_fserr info d l1 l2 l3 l4 l5 l6 l7 l8 l9 (l10 :: rest)
        (hfsd ▸ hneq) h1]
    exact ⟨rfl, rfl, rfl, rfl, rfl, rfl⟩

/-! ## Concrete line evaluations for the block-reader witnesses -/

lemma wdrop_fs100 :
    ("Measurement Frequency:100".toList ++ ['\n']).drop 22 = "100\n".toList := by
  decide

lemma wdrop_fs50 :
    ("Measurement Frequency:50".toList ++ ['\n']).drop 22 = "50\n".toList := by
  decide

lemma wdrop_temp :
    ("Temperature:21.5".toList ++ ['\n']).drop 12 = "21.5\n".toList := by
  decide

lemma wfs100_val :
    strtod (("Measurement Frequency:100".toList ++ ['\n']).drop 22) = 100 := by
  rw [wdrop_fs100]
  simp +decide [strtod, strtodAux, strtodExp, takeDigits, String.toList,
    List.dropWhile]

lemma wfs50_val :
    strtod (("Measurement Frequency:50".toList ++ ['\n']).drop 22) = 50 := by
  rw [wdrop_fs50]
  simp +decide [strtod, strtodAux, strtodExp, takeDigits, String.toList,
    List.dropWhile]

lemma wtemp_val :
    strtod (("Temperature:21.5".toList ++ ['\n']).drop 12) = 43 / 2 := by
  rw [wdrop_temp]
  simp +decide [strtod, strtodAux, strtodExp, takeDigits, String.toList,
    List.dropWhile]
  norm_num

/-- Witness for C2: a block declaring 50 Hz against a 100 Hz header,
exercised once with mismatch counter 0 (warning, corrected rate) and
once with counter 1 (fatal). -/
theorem C2_witness :
    ((geneactiv_read_block cInfo zeroData
      ("a".toList :: "b".toList :: "Sequence Number:3".toList :: wTime ::
       "c".toList :: "Temperature:21.5".toList :: "d".toList :: "e".toList ::
       "Measurement Frequency:50".toList :: List.replicate 3600 '0' :: [])).1 =
        .GN_READ_E_BLOCK_FS_WARN
    ∧ (geneactiv_read_block cInfo zeroData
      ("a".toList :: "b".toList :: "Sequence Number:3".toList :: wTime ::
       "c".toList :: "Temperature:21.5".toList :: "d".toList :: "e".toList ::
       "Measurement Frequency:50".toList :: List.replicate 3600 '0' :: [])).2.1.fs =
        strtod (("Measurement Frequency:50".toList ++ ['\n']).drop 22))
    ∧ (geneactiv_read_block { cInfo with fs_err := 1 } zeroData
      ("a".toList :: "b".toList :: "Sequence Number:3".toList :: wTime ::
       "c".toList :: "Temperature:21.5".toList :: "d".toList :: "e".toList ::
       "Measurement Frequency:50".toList :: List.replicate 3600 '0' :: [])).1 =
        .GN_READ_E_BLOCK_FS := by
  have hneq : strtod (("Measurement Frequency:50".toList ++ ['\n']).drop 22)
      ≠ cInfo.fs := by
    rw [wfs50_val]
    norm_num [cInfo]
  have hneq2 : strtod (("Measurement Frequency:50".toList ++ ['\n']).drop 22)
      ≠ ({ cInfo with fs_err := 1 } : GN_Info).fs := by
    rw [wfs50_val]
    norm_num [cInfo]
  have hlen : 3600 ≤ (List.replicate 3600 '0').length := by
    rw [List.length_replicate]
  have ha := (C2_rate_mismatch_policy cInfo zeroData "a".toList "b".toList
    "Sequence Number:3".toList wTime "c".toList "Temperature:21.5".toList
    "d".toList "e".toList "Measurement Frequency:50".toList
    (List.replicate 3600 '0') []
    (strtol (("Sequence Number:3".toList ++ ['\n']).drop 16) 10)
    (strtol (("Sequence Number:3".toList ++ ['\n']).drop 16) 10 * (GN_SAMPLES : ℤ))
    (strtod (("Measurement Frequency:50".toList ++ ['\n']).drop 22))
    rfl rfl rfl _ rfl hneq).1 rfl hlen
  have hb := (C2_rate_mismatch_policy { cInfo with fs_err := 1 } zeroData
    "a".toList "b".toList "Sequence Number:3".toList wTime "c".toList
    "Temperature:21.5".toList "d".toList "e".toList
    "Measurement Frequency:50".toList (List.replicate 3600 '0') []
    (strtol (("Sequence Number:3".toList ++ ['\n']).drop 16) 10)
    (strtol (("Sequence Number:3".toList ++ ['\n']).drop 16) 10 * (GN_SAMPLES : ℤ))
    (strtod (("Measurement Frequency:50".toList ++ ['\n']).drop 22))
    rfl rfl rfl _ rfl hneq2).2 (by norm_num)
  exact ⟨⟨ha.1, ha.2.1⟩, hb.1⟩

/-- Witness for C7: sequence number 3 (samples land at offset 900),
temperature 21.5, 100 Hz matching the header. -/
theorem C7_witness :
    (geneactiv_read_block cInfo zeroData
      ("a".toList :: "b".toList :: "Sequence Number:3".toList :: wTime ::
       "c".toList :: "Temperature:21.5".toList :: "d".toList :: "e".toList ::
       "Measurement Frequency:100".toList :: List.replicate 3600 '0' :: [])).1 =
      GNRead.GN_READ_E_NONE
    ∧ (geneactiv_read_block cInfo zeroData
      ("a".toList :: "b".toList :: "Sequence Number:3".toList :: wTime ::
       "c".toList :: "Temperature:21.5".toList :: "d".toList :: "e".toList ::
       "Measurement Frequency:100".toList :: List.replicate 3600 '0' :: [])).2.2.1.temp
        (strtol (("Sequence Number:3".toList ++ ['\n']).drop 16) 10 * (GN_SAMPLES : ℤ)
          + ((0 : ℕ) : ℤ)) =
      strtod (("Temperature:21.5".toList ++ ['\n']).drop 12) := by
  have hfs : strtod (("Measurement Frequency:100".toList ++ ['\n']).drop 22)
      = cInfo.fs := by
    rw [wfs100_val]
    norm_num [cInfo]
  have hlen : 3600 ≤ (List.replicate 3600 '0').length := by
    rw [List.length_replicate]
  have h := C7_block_offsets cInfo zeroData "a".toList "b".toList
    "Sequence Number:3".toList wTime "c".toList "Temperature:21.5".toList
    "d".toList "e".toList "Measurement Frequency:100".toList
    (List.replicate 3600 '0') []
    (strtol (("Sequence Number:3".toList ++ ['\n']).drop 16) 10)
    (strtol (("Sequence Number:3".toList ++ ['\n']).drop 16) 10 * (GN_SAMPLES : ℤ))
    rfl rfl _ rfl hfs hlen
  exact ⟨h.1, h.2.1 0 (by decide)⟩

/-! ## Claim C9: comparison against the corrected rate -/

lemma read_block_fserr_head (info : GN_Info) (d : GN_Data)
    (m1 m2 m3 m4 m5 m6 m7 m8 m9 : List Char) (rest2 : List (List Char))
    (hfs : strtod ((m9 ++ ['\n']).drop 22) ≠ info.fs)
    (h1 : 1 ≤ info.fs_err) :
    (geneactiv_read_block info d
      (m1 :: m2 :: m3 :: m4 :: m5 :: m6 :: m7 :: m8 :: m9 :: rest2)).1 =
      .GN_READ_E_BLOCK_FS := by
  rw [read_block_cons_fserr info d m1 m2 m3 m4 m5 m6 m7 m8 m9 rest2 hfs h1]

/-- C9: after the first tolerated mismatch the header rate holds the
block's (corrected) value and the counter is 1, so a later block whose
declared rate is the original header rate — different from the
corrected one — fails with `GN_READ_E_BLOCK_FS`. -/
theorem C9_rate_compare_corrected (info : GN_Info) (d : GN_Data)
    (l1 l2 l3 l4 l5 l6 l7 l8 l9 l10 : List Char) (rest : List (List Char))
    (m1 m2 m3 m4 m5 m6 m7 m8 m9 : List Char) (rest2 : List (List Char))
    (h0 : info.fs_err = 0)
    (hneq : strtod ((l9 ++ ['\n']).drop 22) ≠ info.fs)
    (hlen : 3600 ≤ l10.length)
    (hm9 : strtod ((m9 ++ ['\n']).drop 22) = info.fs)
    (r1 : GNRead × GN_Info × GN_Data × List (List Char))
    (hr1 : r1 = geneactiv_read_block info d
      (l1 :: l2 :: l3 :: l4 :: l5 :: l6 :: l7 :: l8 :: l9 :: l10 :: rest)) :
    r1.1 = .GN_READ_E_BLOCK_FS_WARN
    ∧ r1.2.1.fs = strtod ((l9 ++ ['\n']).drop 22)
    ∧ r1.2.1.fs_err = 1
    ∧ (geneactiv_read_block r1.2.1 r1.2.2.1
        (m1 :: m2 :: m3 :: m4 :: m5 :: m6 :: m7 :: m8 :: m9 :: rest2)).1 =
      .GN_READ_E_BLOCK_FS := by
  subst hr1
  rw [read_block_cons_warn info d l1 l2 l3 l4 l5 l6 l7 l8 l9 (l10 :: rest)
      hneq h0,
    read_block_rest_ok _ _ _ _ _ _ _ hlen]
  refine ⟨rfl, rfl, by dsimp only; omega, ?_⟩
  exact read_block_fserr_head _ _ m1 m2 m3 m4 m5 m6 m7 m8 m9 rest2
    (by dsimp only
        rw [hm9]
        exact fun h => hneq h.symm)
    (by dsimp only; omega)

/-- Witness for C9: 100 Hz header, first block declares 50 Hz
(tolerated), second block declares the original 100 Hz and fails. -/
theorem C9_witness :
    (geneactiv_read_block cInfo zeroData
      ("a".toList :: "b".toList :: "Sequence Number:3".toList :: wTime ::
       "c".toList :: "Temperature:21.5".toList :: "d".toList :: "e".toList ::
       "Measurement Frequency:50".toList :: List.replicate 3600 '0' :: [])).1 =
      GNRead.GN_READ_E_BLOCK_FS_WARN
    ∧ (geneactiv_read_block
        (geneactiv_read_block cInfo zeroData
          ("a".toList :: "b".toList :: "Sequence Number:3".toList :: wTime ::
           "c".toList :: "Temperature:21.5".toList :: "d".toList :: "e".toList ::
           "Measurement Frequency:50".toList :: List.replicate 3600 '0' :: [])).2.1
        (geneactiv_read_block cInfo zeroData
          ("a".toList :: "b".toList :: "Sequence Number:3".toList :: wTime ::
           "c".toList :: "Temperature:21.5".toList :: "d".toList :: "e".toList ::
           "Measurement Frequency:50".toList :: List.replicate 3600 '0' :: [])).2.2.1
        ("a".toList :: "b".toList :: "Sequence Number:4".toList :: wTime ::
         "c".toList :: "Temperature:21.5".toList :: "d".toList :: "e".toList ::
         "Measurement Frequency:100".toList :: [])).1 =
      GNRead.GN_READ_E_BLOCK_FS := by
  have hneq : strtod (("Measurement Frequency:50".toList ++ ['\n']).drop 22)
      ≠ cInfo.fs := by
    rw [wfs50_val]
    norm_num [cInfo]
  have hm9 : strtod (("Measurement Frequency:100".toList ++ ['\n']).drop 22)
      = cInfo.fs := by
    rw [wfs100_val]
    norm_num [cInfo]
  have hlen : 3600 ≤ (List.replicate 3600 '0').length := by
    rw [List.length_replicate]
  have h := C9_rate_compare_corrected cInfo zeroData "a".toList "b".toList
    "Sequence Number:3".toList wTime "c".toList "Temperature:21.5".toList
    "d".toList "e".toList "Measurement Frequency:50".toList
    (List.replicate 3600 '0') []
    "a".toList "b".toList "Sequence Number:4".toList wTime "c".toList
    "Temperature:21.5".toList "d".toList "e".toList
    "Measurement Frequency:100".toList []
    rfl hneq hlen hm9 _ rfl
  exact ⟨h.1, h.2.2.2⟩

/-! ## Claim C4 (corrected): truncated data line -/

/-- C4 (amended): a block whose data line is absent or shorter than 3600
characters yields the spec's `TruncatedBlockError`
(`GN_READ_E_BLOCK_DATA`/`GN_READ_E_BLOCK_DATA_3600`); no timestamp,
acceleration or light value is written and those buffers are untouched
everywhere — but the block's temperature, read before the length check,
has already been replicated into its `GN_SAMPLES` temperature slots;
buffer entries of earlier blocks are preserved. -/
theorem C4_truncated_block_amended (info : GN_Info) (d : GN_Data)
    (l1 l2 l3 l4 l5 l6 l7 l8 l9 l10 : List Char) (rest : List (List Char))
    (N Nps : ℤ)
    (hN : N = strtol ((l3 ++ ['\n']).drop 16) 10)
    (hNps : Nps = N * (GN_SAMPLES : ℤ))
    (hfs : strtod ((l9 ++ ['\n']).drop 22) = info.fs)
    (hshort : l10.length < 3600)
    (rA rB : GNRead × GN_Info × GN_Data × List (List Char))
    (hrA : rA = geneactiv_read_block info d
      (l1 :: l2 :: l3 :: l4 :: l5 :: l6 :: l7 :: l8 :: l9 :: l10 :: rest))
    (hrB : rB = geneactiv_read_block info d
      (l1 :: l2 :: l3 :: l4 :: l5 :: l6 :: l7 :: l8 :: l9 ::
        ([] : List (List Char)))) :
    (rA.1 = .GN_READ_E_BLOCK_DATA_3600 ∧ isTruncatedBlockError rA.1 = true
      ∧ rA.2.2.1.ts = d.ts ∧ rA.2.2.1.acc = d.acc ∧ rA.2.2.1.light = d.light
      ∧ (∀ i : ℤ, Nps ≤ i → i < Nps + (GN_SAMPLES : ℤ) →
          rA.2.2.1.temp i = strtod ((l6 ++ ['\n']).drop 12))
      ∧ (∀ i : ℤ, i < Nps ∨ Nps + (GN_SAMPLES : ℤ) ≤ i →
          rA.2.2.1.temp i = d.temp i))
    ∧ (rB.1 = .GN_READ_E_BLOCK_DATA ∧ isTruncatedBlockError rB.1 = true
      ∧ rB.2.2.1.ts = d.ts ∧ rB.2.2.1.acc = d.acc ∧ rB.2.2.1.light = d.light
      ∧ (∀ i : ℤ, i < Nps ∨ Nps + (GN_SAMPLES : ℤ) ≤ i →
          rB.2.2.1.temp i = d.temp i)) := by
  subst hrA hrB
  constructor
  · rw [read_block_cons_none info d l1 l2 l3 l4 l5 l6 l7 l8 l9 (l10 :: rest)
        hfs,
      read_block_rest_short _ _ _ _ _ _ _ hshort, ← hN, ← hNps]
    refine ⟨rfl, rfl, rfl, rfl, rfl, ?_, ?_⟩
    · intro i h1 h2
      dsimp only
      rw [if_pos ⟨h1, h2⟩]
    · intro i hi
      dsimp only
      rw [if_neg (by rcases hi with h | h <;> omega)]
  · rw [read_block_cons_none info d l1 l2 l3 l4 l5 l6 l7 l8 l9 [] hfs,
      read_block_rest_absent, ← hN, ← hNps]
    refine ⟨rfl, rfl, rfl, rfl, rfl, ?_⟩
    intro i hi
    dsimp only
    rw [if_neg (by rcases hi with h | h <;> omega)]

/-- Witness for C4 (amended): short data line `00`, and a stream that
ends right before the data line. -/
theorem C4_witness :
    (geneactiv_read_block cInfo zeroData
      ("a".toList :: "b".toList :: "Sequence Number:3".toList :: wTime ::
       "c".toList :: "Temperature:21.5".toList :: "d".toList :: "e".toList ::
       "Measurement Frequency:100".toList :: "00".toList :: [])).1 =
      GNRead.GN_READ_E_BLOCK_DATA_3600
    ∧ (geneactiv_read_block cInfo zeroData
      ("a".toList :: "b".toList :: "Sequence Number:3".toList :: wTime ::
       "c".toList :: "Temperature:21.5".toList :: "d".toList :: "e".toList ::
       "Measurement Frequency:100".toList ::
        ([] : List (List Char)))).1 = GNRead.GN_READ_E_BLOCK_DATA := by
  have hfs : strtod (("Measurement Frequency:100".toList ++ ['\n']).drop 22)
      = cInfo.fs := by
    rw [wfs100_val]
    norm_num [cInfo]
  have h := C4_truncated_block_amended cInfo zeroData "a".toList "b".toList
    "Sequence Number:3".toList wTime "c".toList "Temperature:21.5".toList
    "d".toList "e".toList "Measurement Frequency:100".toList "00".toList []
    (strtol (("Sequence Number:3".toList ++ ['\n']).drop 16) 10)
    (strtol (("Sequence Number:3".toList ++ ['\n']).drop 16) 10 * (GN_SAMPLES : ℤ))
    rfl rfl hfs (by decide) _ _ rfl rfl
  exact ⟨h.1.1, h.2.1⟩

/-- C4 counterexample: on a block whose data line has only two
characters the decoder reports the truncated-data error, yet a
temperature value for that block HAS been written: temperature slot 0
changed from 0 to 21.5. -/
theorem C4_counterexample :
    isTruncatedBlockError (geneactiv_read_block cInfo zeroData
      ("a".toList :: "b".toList :: "Sequence Number:0".toList :: wTime ::
       "c".toList :: "Temperature:21.5".toList :: "d".toList :: "e".toList ::
       "Measurement Frequency:100".toList :: "00".toList :: [])).1 = true
    ∧ (geneactiv_read_block cInfo zeroData
      ("a".toList :: "b".toList :: "Sequence Number:0".toList :: wTime ::
       "c".toList :: "Temperature:21.5".toList :: "d".toList :: "e".toList ::
       "Measurement Frequency:100".toList :: "00".toList :: [])).2.2.1.temp 0
      ≠ zeroData.temp 0 := by
  have hfs : strtod (("Measurement Frequency:100".toList ++ ['\n']).drop 22)
      = cInfo.fs := by
    rw [wfs100_val]
    norm_num [cInfo]
  have key := read_block_cons_none cInfo zeroData "a".toList "b".toList
    "Sequence Number:0".toList wTime "c".toList "Temperature:21.5".toList
    "d".toList "e".toList "Measurement Frequency:100".toList
    ("00".toList :: []) hfs
  rw [read_block_rest_short _ _ _ _ _ _ _ (by decide)] at key
  rw [key]
  refine ⟨rfl, ?_⟩
  dsimp only
  rw [if_pos (by decide)]
  rw [wtemp_val]
  norm_num [zeroData]

/-! ## Stream lemmas for the header reader -/

lemma GN_READLINE_err (b : List Char) :
    GN_READLINE (b, ([] : List (List Char))) = .error .GN_READ_E_FORMAT := rfl

lemma GN_READLINE_ok (s : List Char × List (List Char)) (h : s.2 ≠ []) :
    ∃ b2, GN_READLINE s = .ok (b2, s.2.tail) := by
  obtain ⟨b, ls⟩ := s
  cases ls with
  | nil => exact absurd rfl h
  | cons l rest => exact ⟨l ++ ['\n'], rfl⟩

lemma repeatReadline_err (n : ℕ) :
    ∀ s : List Char × List (List Char), s.2.length < n →
      repeatReadline n s = .error .GN_READ_E_FORMAT := by
  induction n with
  | zero => intro s h; omega
  | succ n ih =>
    intro s h
    obtain ⟨b, ls⟩ := s
    cases ls with
    | nil => rfl
    | cons l rest =>
      show repeatReadline n (l ++ ['\n'], rest) = _
      exact ih _ (by simp at h ⊢; omega)

lemma repeatReadline_ok (n : ℕ) :
    ∀ s : List Char × List (List Char), n ≤ s.2.length →
      ∃ b2, repeatReadline n s = .ok (b2, s.2.drop n) := by
  induction n with
  | zero => intro s _; exact ⟨s.1, rfl⟩
  | succ n ih =>
    intro s h
    obtain ⟨b, ls⟩ := s
    cases ls with
    | nil => simp at h
    | cons l rest =>
      obtain ⟨b2, hb⟩ := ih (l ++ ['\n'], rest) (by simp at h ⊢; omega)
      exact ⟨b2, by
        show repeatReadline n (l ++ ['\n'], rest) = _
        rw [hb]
        rfl⟩

lemma parseline_stream (b : List Char) (ls : List (List Char)) :
    (parseline b ls).1.2 = ls.tail := by
  cases ls <;> rfl

lemma parseline_stream_drop (b : List Char) (ls : List (List Char)) (n : ℕ) :
    (parseline b (ls.drop n)).1.2 = ls.drop (n + 1) := by
  rw [parseline_stream, List.tail_drop]

lemma geneactiv_read_header_ok (ls : List (List Char)) (h : 59 ≤ ls.length) :
    ∃ r, geneactiv_read_header ls = .ok r := by
  unfold geneactiv_read_header
  obtain ⟨b1, h1⟩ := repeatReadline_ok 19 ([], ls) (show 19 ≤ ls.length by omega)
  simp only [h1]
  generalize hq2 : parseline b1 (ls.drop 19) = q2
  have f2 : q2.1.2 = ls.drop 20 := by
    rw [← hq2]; exact parseline_stream_drop b1 ls 19
  obtain ⟨b3, h3⟩ := repeatReadline_ok 27 q2.1
    (by rw [f2, List.length_drop]; omega)
  rw [f2, List.drop_drop] at h3
  norm_num at h3
  simp only [h3]
  generalize hq4 : parseline b3 (ls.drop 47) = q4
  have f4 : q4.1.2 = ls.drop 48 := by
    rw [← hq4]; exact parseline_stream_drop b3 ls 47
  rw [f4]
  generalize hq5 : parseline q4.1.1 (ls.drop 48) = q5
  have f5 : q5.1.2 = ls.drop 49 := by
    rw [← hq5]; exact parseline_stream_drop q4.1.1 ls 48
  rw [f5]
  generalize hq6 : parseline q5.1.1 (ls.drop 49) = q6
  have f6 : q6.1.2 = ls.drop 50 := by
    rw [← hq6]; exact parseline_stream_drop q5.1.1 ls 49
  rw [f6]
  generalize hq7 : parseline q6.1.1 (ls.drop 50) = q7
  have f7 : q7.1.2 = ls.drop 51 := by
    rw [← hq7]; exact parseline_stream_drop q6.1.1 ls 50
  rw [f7]
  generalize hq8 : parseline q7.1.1 (ls.drop 51) = q8
  have f8 : q8.1.2 = ls.drop 52 := by
    rw [← hq8]; exact parseline_stream_drop q7.1.1 ls 51
  rw [f8]
  generalize hq9 : parseline q8.1.1 (ls.drop 52) = q9
  have f9 : q9.1.2 = ls.drop 53 := by
    rw [← hq9]; exact parseline_stream_drop q8.1.1 ls 52
  obtain ⟨b10, h10⟩ := GN_READLINE_ok q9.1
    (by rw [f9]
        apply List.ne_nil_of_length_pos
        rw [List.length_drop]; omega)
  rw [f9, List.tail_drop] at h10
  norm_num at h10
  simp only [h10]
  obtain ⟨b11, h11⟩ := GN_READLINE_ok (b10, ls.drop 54)
    (by apply List.ne_nil_of_length_pos
        rw [List.length_drop]; omega)
  rw [show ((b10, ls.drop 54) : List Char × List (List Char)).2.tail
      = ls.drop 55 from List.tail_drop ls 54] at h11
  simp only [h11]
  obtain ⟨b12, h12⟩ := repeatReadline_ok 3 (b11, ls.drop 55)
    (by show (3 : ℕ) ≤ (ls.drop 55).length
        rw [List.length_drop]; omega)
  rw [show List.drop 3 ((b11, ls.drop 55) : List Char × List (List Char)).2
      = ls.drop 58 by rw [show ((b11, ls.drop 55) : List Char × List (List Char)).2
        = ls.drop 55 from rfl, List.drop_drop]] at h12
  simp only [h12]
  obtain ⟨b13, h13⟩ := GN_READLINE_ok (b12, ls.drop 58)
    (by apply List.ne_nil_of_length_pos
        rw [List.length_drop]; omega)
  simp only [h13]
  exact ⟨_, rfl⟩

lemma GN_READLINE_err_of_nil (s : List Char × List (List Char))
    (h : s.2 = []) : GN_READLINE s = .error .GN_READ_E_FORMAT := by
  simp only [GN_READLINE, h]

lemma geneactiv_read_header_err (ls : List (List Char))
    (h : ls.length < 59) :
    geneactiv_read_header ls = .error .GN_READ_E_FORMAT := by
  unfold geneactiv_read_header
  by_cases h19 : ls.length < 19
  · rw [repeatReadline_err 19 ([], ls) h19]
  · push_neg at h19
    obtain ⟨b1, h1⟩ := repeatReadline_ok 19 ([], ls) h19
    simp only [h1]
    generalize hq2 : parseline b1 (ls.drop 19) = q2
    have f2 : q2.1.2 = ls.drop 20 := by
      rw [← hq2]; exact parseline_stream_drop b1 ls 19
    by_cases h47 : ls.length < 47
    · rw [repeatReadline_err 27 q2.1 (by rw [f2, List.length_drop]; omega)]
    · push_neg at h47
      obtain ⟨b3, h3⟩ := repeatReadline_ok 27 q2.1
        (by rw [f2, List.length_drop]; omega)
      rw [f2, List.drop_drop] at h3
      norm_num at h3
      simp only [h3]
      generalize hq4 : parseline b3 (ls.drop 47) = q4
      have f4 : q4.1.2 = ls.drop 48 := by
        rw [← hq4]; exact parseline_stream_drop b3 ls 47
      rw [f4]
      generalize hq5 : parseline q4.1.1 (ls.drop 48) = q5
      have f5 : q5.1.2 = ls.drop 49 := by
        rw [← hq5]; exact parseline_stream_drop q4.1.1 ls 48
      rw [f5]
      generalize hq6 : parseline q5.1.1 (ls.drop 49) = q6
      have f6 : q6.1.2 = ls.drop 50 := by
        rw [← hq6]; exact parseline_stream_drop q5.1.1 ls 49
      rw [f6]
      generalize hq7 : parseline q6.1.1 (ls.drop 50) = q7
      have f7 : q7.1.2 = ls.drop 51 := by
        rw [← hq7]; exact parseline_stream_drop q6.1.1 ls 50
      rw [f7]
      generalize hq8 : parseline q7.1.1 (ls.drop 51) = q8
      have f8 : q8.1.2 = ls.drop 52 := by
        rw [← hq8]; exact parseline_stream_drop q7.1.1 ls 51
      rw [f8]
      generalize hq9 : parseline q8.1.1 (ls.drop 52) = q9
      have f9 : q9.1.2 = ls.drop 53 := by
        rw [← hq9]; exact parseline_stream_drop q8.1.1 ls 52
      by_cases h54 : ls.length < 54
      · rw [GN_READLINE_err_of_nil q9.1
          (by rw [f9]; exact List.drop_eq_nil_of_le (by omega))]
      · push_neg at h54
        obtain ⟨b10, h10⟩ := GN_READLINE_ok q9.1
          (by rw [f9]
              apply List.ne_nil_of_length_pos
              rw [List.length_drop]; omega)
        rw [f9, List.tail_drop] at h10
        norm_num at h10
        simp only [h10]
        by_cases h55 : ls.length < 55
        · rw [GN_READLINE_err_of_nil (b10, ls.drop 54)
            (List.drop_eq_nil_of_le (by omega))]
        · push_neg at h55
          obtain ⟨b11, h11⟩ := GN_READLINE_ok (b10, ls.drop 54)
            (by apply List.ne_nil_of_length_pos
                rw [List.length_drop]; omega)
          rw [show ((b10, ls.drop 54) : List Char × List (List Char)).2.tail
              = ls.drop 55 from List.tail_drop ls 54] at h11
          simp only [h11]
          by_cases h58 : ls.length < 58
          · rw [repeatReadline_err 3 (b11, ls.drop 55)
              (by show (ls.drop 55).length < 3
                  rw [List.length_drop]; omega)]
          · push_neg at h58
            obtain ⟨b12, h12⟩ := repeatReadline_ok 3 (b11, ls.drop 55)
              (by show (3 : ℕ) ≤ (ls.drop 55).length
                  rw [List.length_drop]; omega)
            rw [show List.drop 3 ((b11, ls.drop 55) :
                List Char × List (List Char)).2 = ls.drop 58 by
              rw [show ((b11, ls.drop 55) :
                  List Char × List (List Char)).2 = ls.drop 55 from rfl,
                List.drop_drop]] at h12
            simp only [h12]
            rw [GN_READLINE_err_of_nil (b12, ls.drop 58)
              (List.drop_eq_nil_of_le (by omega))]

/-! ## Claim C3 (corrected): header failure conditions -/

/-- C3 (amended): the Header Decoder returns the fatal format error
exactly when the stream ends before 59 lines are consumed; a stream of
at least 59 lines always parses successfully — numeric fields that fail
to parse are silently read as 0 by `strtol` instead of being
reported. -/
theorem C3_header_truncation_amended (ls : List (List Char)) :
    (ls.length < 59 →
      geneactiv_read_header ls = .error .GN_READ_E_FORMAT)
    ∧ (59 ≤ ls.length → ∃ r, geneactiv_read_header ls = .ok r) :=
  ⟨geneactiv_read_header_err ls, geneactiv_read_header_ok ls⟩

/-- A 59-line header stream whose sampling-frequency line carries a
non-numeric value. -/
def badHeader : List (List Char) :=
  List.replicate 19 "k:1".toList ++
    "Frequency:x".toList :: List.replicate 39 "k:1".toList

/-- C3 counterexample: on a 59-line stream whose sampling-frequency
field is not a number, the Header Decoder returns success (with the
frequency silently parsed as 0), not `HeaderFormatError` as the claim
requires. -/
theorem C3_counterexample :
    ∃ r, geneactiv_read_header badHeader = .ok r ∧ r.1.fs = 0 :=
  ⟨_, rfl, by decide⟩

/-- Witness for C3 (amended): the empty stream fails, a 59-line stream
succeeds. -/
theorem C3_witness :
    geneactiv_read_header [] = .error .GN_READ_E_FORMAT ∧
      ∃ r, geneactiv_read_header (List.replicate 59 "k:1".toList) = .ok r := by
  have hlen : (List.replicate 59 "k:1".toList).length = 59 := by
    rw [List.length_replicate]
  exact ⟨(C3_header_truncation_amended []).1 (by decide),
    (C3_header_truncation_amended (List.replicate 59 "k:1".toList)).2 hlen.ge⟩

/-! ## Claim C8: the rolling-median binding -/

lemma movstat_median_padzero_length (wlen : ℕ) (xs : List ℚ) :
    (movstat_median_padzero wlen xs).length = xs.length := by
  simp only [movstat_median_padzero, List.length_map, List.length_range]

lemma flatten_slice (stride : ℕ) :
    ∀ ls : List (List ℚ), (∀ l ∈ ls, l.length = stride) →
      ∀ i : ℕ, i < ls.length →
        (ls.flatten.drop (i * stride)).take stride = ls.getD i [] := by
  intro ls
  induction ls with
  | nil => intro _ i hi; simp at hi
  | cons c t ih =>
    intro hlen i hi
    have hc : c.length = stride := hlen c (by simp)
    cases i with
    | zero =>
      rw [List.flatten_cons, Nat.zero_mul, List.drop_zero, ← hc,
        List.take_left, List.getD_cons_zero]
    | succ i =>
      rw [List.flatten_cons, show (i + 1) * stride = c.length + i * stride by
          rw [hc]; ring,
        List.drop_append, List.getD_cons_succ]
      exact ih (fun l hl => hlen l (by simp [hl])) i (by simpa using hi)

/-- C8: the rolling-median binding returns an array of exactly the same
shape and total length as its input, and (for an odd window length,
whose windows then have exactly `wlen` entries) each length-`stride`
slice along the last axis of the output is the zero-padded windowed
median of the corresponding input slice. -/
theorem C8_roll_median_contract (x : NDArray) (wlen stride : ℕ)
    (hstride : stride = x.shape.getLastD 1)
    (hne : x.shape ≠ []) (hwf : x.data.length = x.shape.prod)
    (hodd : wlen % 2 = 1) :
    (roll_median x wlen).shape = x.shape
    ∧ (roll_median x wlen).data.length = x.data.length
    ∧ (∀ i : ℕ, i < x.data.length / stride →
        ((roll_median x wlen).data.drop (i * stride)).take stride =
          movstat_median_padzero wlen ((x.data.drop (i * stride)).take stride))
    ∧ 2 * (wlen / 2) + 1 = wlen := by
  have hconcat := List.dropLast_concat_getLast hne
  have hlastd : x.shape.getLastD 1 = x.shape.getLast hne := by
    conv_lhs => rw [← hconcat]
    exact List.getLastD_concat 1 _ _
  have hprod : x.shape.prod = x.shape.dropLast.prod * x.shape.getLast hne := by
    conv_lhs => rw [← hconcat]
    rw [List.prod_append]
    simp
  have hlen2 : x.data.length = x.shape.dropLast.prod * stride := by
    rw [hwf, hprod, hstride, hlastd]
  have hoddw : 2 * (wlen / 2) + 1 = wlen := by omega
  rcases Nat.eq_zero_or_pos stride with hs0 | hspos
  · refine ⟨rfl, ?_, ?_, hoddw⟩
    · simp only [roll_median, ← hstride, hs0, Nat.div_zero, List.range_zero,
        List.map_nil, List.flatten_nil, List.length_nil]
      rw [hlen2, hs0, Nat.mul_zero]
    · intro i hi
      rw [hs0, Nat.div_zero] at hi
      omega
  · have hq : x.data.length / stride = x.shape.dropLast.prod := by
      rw [hlen2]
      exact Nat.mul_div_cancel _ hspos
    have hslice_len : ∀ i : ℕ, i < x.shape.dropLast.prod →
        ((x.data.drop (i * stride)).take stride).length = stride := by
      intro i hi
      rw [List.length_take, List.length_drop, hlen2]
      have h1 : (i + 1) * stride ≤ x.shape.dropLast.prod * stride :=
        Nat.mul_le_mul_right stride (by omega)
      rw [Nat.succ_mul] at h1
      omega
    refine ⟨rfl, ?_, ?_, hoddw⟩
    · simp only [roll_median, ← hstride, hq]
      rw [List.length_flatten, List.map_map]
      have hmap : (List.range x.shape.dropLast.prod).map
          (List.length ∘ fun i => movstat_median_padzero wlen
            ((x.data.drop (i * stride)).take stride))
          = (List.range x.shape.dropLast.prod).map (fun _ => stride) := by
        apply List.map_congr_left
        intro a ha
        show (movstat_median_padzero wlen _).length = stride
        rw [movstat_median_padzero_length, hslice_len a (List.mem_range.mp ha)]
      rw [hmap, show (fun _ : ℕ => stride) = Function.const ℕ stride from rfl,
        List.map_const, List.length_range, List.sum_replicate, smul_eq_mul,
        hlen2]
    · intro i hi
      rw [hq] at hi
      simp only [roll_median, ← hstride, hq]
      have key := flatten_slice stride
        ((List.range x.shape.dropLast.prod).map (fun i =>
          movstat_median_padzero wlen ((x.data.drop (i * stride)).take stride)))
        (by intro l hl
            obtain ⟨a, ha, rfl⟩ := List.mem_map.mp hl
            rw [movstat_median_padzero_length,
              hslice_len a (List.mem_range.mp ha)])
        i (by rw [List.length_map, List.length_range]; exact hi)
      rw [key, List.getD_eq_getElem _ _ (by
        rw [List.length_map, List.length_range]; exact hi)]
      rw [List.getElem_map, List.getElem_range]

/-- Witness for C8: a 2×3 array with window length 3. -/
theorem C8_witness :
    (roll_median ⟨[2, 3], [1, 2, 3, 4, 5, 6]⟩ 3).shape = ([2, 3] : List ℕ)
    ∧ (roll_median ⟨[2, 3], [1, 2, 3, 4, 5, 6]⟩ 3).data.length =
        ([1, 2, 3, 4, 5, 6] : List ℚ).length := by
  have h := C8_roll_median_contract ⟨[2, 3], ([1, 2, 3, 4, 5, 6] : List ℚ)⟩
    3 3 rfl (by decide) rfl (by decide)
  exact ⟨h.1, h.2.1⟩
